import Mathlib

/-!
Verification of the mediamtx (rtsp-simple-server) core against its
natural-language specification.

This file shallowly embeds the relevant parts of the Go sources:

* `internal/formatprocessor/h264.go` and `h265.go` — parameter-set
  extraction, track-parameter updates, access-unit remuxing and the
  `Process` entry point;
* `internal/formatprocessor/vp9.go` and `mpeg1_audio.go` —
  `ProcessRTPPacket`;
* `internal/core/path.go` — the path event loop, `handleDescribe`,
  `handlePublisherAdd` and `shouldClose`.

Bytes are modelled as `Nat` (a byte `b` satisfies the bit-mask identities
`b &&& 0x1F = b % 32` and `(b >>> 1) &&& 0x3F = b / 2 % 64`, which is how
NAL-unit types are written below).  Go `nil`-able byte slices are
`Option (List Nat)`; a Go `nil` slice of slices is the empty list or an
`Option`, as noted at each definition.  External library calls
(gortsplib RTP encoders/decoders, pion `MarshalSize`) are oracles passed
as parameters, per the repository's use of them as black boxes.
-/

namespace Mediamtx

/-- A NAL unit: a byte string. -/
abbrev NALU := List Nat

/-- An access unit: a list of NAL units. -/
abbrev AccessUnit := List NALU

/-- H.264 NAL type of a NAL unit: `nalu[0] & 0x1F` (Go panics on an empty
NAL unit; `headD 0` makes the model total, giving type 0 there). -/
def naluTypeH264 (nalu : NALU) : Nat := nalu.headD 0 % 32

/-- H.265 NAL type of a NAL unit: `(nalu[0] >> 1) & 0x3F`. -/
def naluTypeH265 (nalu : NALU) : Nat := nalu.headD 0 / 2 % 64

/-- Mutable parameter sets of a `format.H264` (fields `SPS`, `PPS`;
`none` is a Go `nil` slice). -/
structure FormatH264 where
  sps : Option NALU
  pps : Option NALU
  deriving DecidableEq, Repr

/-- Mutable parameter sets of a `format.H265` (fields `VPS`, `SPS`, `PPS`). -/
structure FormatH265 where
  vps : Option NALU
  sps : Option NALU
  pps : Option NALU
  deriving DecidableEq, Repr

/-- `true` when the NAL unit survives the H.264 remux filter
(type not SPS(7)/PPS(8)/access-unit-delimiter(9)); this is the membership
test of both passes of `remuxAccessUnit` in `h264.go`. -/
def h264Keep (nalu : NALU) : Bool :=
  let typ := naluTypeH264 nalu
  !(typ == 7 || typ == 8 || typ == 9)

/-- `true` when the NAL unit is an H.264 IDR slice (type 5). -/
def h264IsIDR (nalu : NALU) : Bool := naluTypeH264 nalu == 5

/-- `true` when the NAL unit survives the H.265 remux filter
(type not VPS(32)/SPS(33)/PPS(34)/AUD(35)). -/
def h265Keep (nalu : NALU) : Bool :=
  let typ := naluTypeH265 nalu
  !(typ == 32 || typ == 33 || typ == 34 || typ == 35)

/-- `true` when the NAL unit is an H.265 key frame
(IDR_W_RADL(19), IDR_N_LP(20), CRA_NUT(21)). -/
def h265IsKeyFrame (nalu : NALU) : Bool :=
  let typ := naluTypeH265 nalu
  typ == 19 || typ == 20 || typ == 21

/-- First pass of `(*formatProcessorH264).remuxAccessUnit`: walks the
access unit carrying the `isKeyFrame` flag and the element count `n`
(the count is raised by 2 at the first IDR when both parameters are
stored). -/
def remuxScanH264 (fmt : FormatH264) : AccessUnit → Bool → Nat → Bool × Nat
  | [], isKeyFrame, n => (isKeyFrame, n)
  | nalu :: rest, isKeyFrame, n =>
    let typ := naluTypeH264 nalu
    if typ == 7 || typ == 8 then
      remuxScanH264 fmt rest isKeyFrame n
    else if typ == 9 then
      remuxScanH264 fmt rest isKeyFrame n
    else if typ == 5 then
      if isKeyFrame then
        remuxScanH264 fmt rest isKeyFrame (n + 1)
      else
        remuxScanH264 fmt rest true
          ((if fmt.sps.isSome && fmt.pps.isSome then n + 2 else n) + 1)
    else
      remuxScanH264 fmt rest isKeyFrame (n + 1)

/-- `(*formatProcessorH264).remuxAccessUnit` (h264.go:165-221).  The Go
second pass fills a pre-allocated slice of length `n` in order: the two
stored parameters first (when a key frame was seen and both are stored),
then every surviving NAL unit; that fill is the ordered append below.
A Go `nil` result is the empty list. -/
def remuxAccessUnitH264 (fmt : FormatH264) (au : AccessUnit) : AccessUnit :=
  let scanned := remuxScanH264 fmt au false 0
  if scanned.2 == 0 then []
  else
    (if scanned.1 && fmt.sps.isSome && fmt.pps.isSome then
      [fmt.sps.getD [], fmt.pps.getD []]
    else []) ++ au.filter h264Keep

/-- The H.264 remux rule as the specification words it: strip all
SPS/PPS/AUD NAL units; if nothing remains, emit nothing; if the remaining
NAL units contain an IDR slice and both SPS and PPS are stored, prepend
the stored SPS then PPS. -/
def remuxSpecH264 (fmt : FormatH264) (au : AccessUnit) : AccessUnit :=
  let filtered := au.filter h264Keep
  if filtered.isEmpty then []
  else if filtered.any h264IsIDR && fmt.sps.isSome && fmt.pps.isSome then
    fmt.sps.getD [] :: fmt.pps.getD [] :: filtered
  else filtered

/-- First pass of `(*formatProcessorH265).remuxAccessUnit`. -/
def remuxScanH265 (fmt : FormatH265) : AccessUnit → Bool → Nat → Bool × Nat
  | [], isKeyFrame, n => (isKeyFrame, n)
  | nalu :: rest, isKeyFrame, n =>
    let typ := naluTypeH265 nalu
    if typ == 32 || typ == 33 || typ == 34 then
      remuxScanH265 fmt rest isKeyFrame n
    else if typ == 35 then
      remuxScanH265 fmt rest isKeyFrame n
    else if typ == 19 || typ == 20 || typ == 21 then
      if isKeyFrame then
        remuxScanH265 fmt rest isKeyFrame (n + 1)
      else
        remuxScanH265 fmt rest true
          ((if fmt.vps.isSome && fmt.sps.isSome && fmt.pps.isSome then n + 3 else n) + 1)
    else
      remuxScanH265 fmt rest isKeyFrame (n + 1)

/-- `(*formatProcessorH265).remuxAccessUnit` (h265.go:186-243). -/
def remuxAccessUnitH265 (fmt : FormatH265) (au : AccessUnit) : AccessUnit :=
  let scanned := remuxScanH265 fmt au false 0
  if scanned.2 == 0 then []
  else
    (if scanned.1 && fmt.vps.isSome && fmt.sps.isSome && fmt.pps.isSome then
      [fmt.vps.getD [], fmt.sps.getD [], fmt.pps.getD []]
    else []) ++ au.filter h265Keep

/-- The H.265 remux rule as the specification words it. -/
def remuxSpecH265 (fmt : FormatH265) (au : AccessUnit) : AccessUnit :=
  let filtered := au.filter h265Keep
  if filtered.isEmpty then []
  else if filtered.any h265IsKeyFrame && fmt.vps.isSome && fmt.sps.isSome
      && fmt.pps.isSome then
    fmt.vps.getD [] :: fmt.sps.getD [] :: fmt.pps.getD [] :: filtered
  else filtered

/-- Loop of the `NALUTypeSTAPA` case of `rtpH264ExtractSPSPPS`
(h264.go:35-63): walk the 2-byte-length-prefixed NAL units.  The Go
`for len(payload) > 0 { if len(payload) < 2 { break } ... }` is the single
`< 2` test here (both exits return the accumulators).  Each contained NAL
unit is classified by its own first byte. -/
def rtpH264ExtractLoop (payload : List Nat) (sps pps : Option NALU) :
    Option NALU × Option NALU :=
  if payload.length < 2 then (sps, pps)
  else
    let size := payload.headD 0 * 256 + payload.tail.headD 0
    let rest := payload.drop 2
    if size == 0 then (sps, pps)
    else if rest.length < size then (none, none)
    else
      let nalu := rest.take size
      let typ := naluTypeH264 nalu
      rtpH264ExtractLoop (rest.drop size)
        (if typ == 7 then some nalu else sps)
        (if typ == 8 then some nalu else pps)
  termination_by payload.length
  decreasing_by
    simp only [List.length_drop]
    omega

/-- `rtpH264ExtractSPSPPS` (h264.go:16-70): extract SPS and PPS from one
RTP payload without a full decode.  NAL types: SPS 7, PPS 8, STAP-A 24. -/
def rtpH264ExtractSPSPPS (payload : List Nat) : Option NALU × Option NALU :=
  if payload.length < 1 then (none, none)
  else
    let typ := payload.headD 0 % 32
    if typ == 7 then (some payload, none)
    else if typ == 8 then (none, some payload)
    else if typ == 24 then rtpH264ExtractLoop (payload.drop 1) none none
    else (none, none)

/-- Loop of the `NALUType_AggregationUnit` case of
`rtpH265ExtractVPSSPSPPS` (h265.go:39-70).  NOTE: the Go code computes
`typ = h265.NALUType((pkt.Payload[0] >> 1) & 0b111111)` inside the loop
(h265.go:58), i.e. from the first byte of the whole RTP payload (carried
here as `b0`), not from the first byte of the current NAL unit. -/
def rtpH265ExtractLoop (b0 : Nat) (payload : List Nat)
    (vps sps pps : Option NALU) : Option NALU × Option NALU × Option NALU :=
  if payload.length < 2 then (vps, sps, pps)
  else
    let size := payload.headD 0 * 256 + payload.tail.headD 0
    let rest := payload.drop 2
    if size == 0 then (vps, sps, pps)
    else if rest.length < size then (none, none, none)
    else
      let nalu := rest.take size
      let typ := b0 / 2 % 64
      rtpH265ExtractLoop b0 (rest.drop size)
        (if typ == 32 then some nalu else vps)
        (if typ == 33 then some nalu else sps)
        (if typ == 34 then some nalu else pps)
  termination_by payload.length
  decreasing_by
    simp only [List.length_drop]
    omega

/-- `rtpH265ExtractVPSSPSPPS` (h265.go:16-77).  NAL types: VPS 32, SPS 33,
PPS 34, aggregation unit 48. -/
def rtpH265ExtractVPSSPSPPS (payload : List Nat) :
    Option NALU × Option NALU × Option NALU :=
  if payload.length < 2 then (none, none, none)
  else
    let typ := payload.headD 0 / 2 % 64
    if typ == 32 then (some payload, none, none)
    else if typ == 33 then (none, some payload, none)
    else if typ == 34 then (none, none, some payload)
    else if typ == 48 then
      rtpH265ExtractLoop (payload.headD 0) (payload.drop 2) none none none
    else (none, none, none)

/-- Go `bytes.Equal(nalu, stored)` where `stored` is a `nil`-able slice:
a `nil` slice equals exactly the empty byte string. -/
def bytesEqualOpt (nalu : NALU) (stored : Option NALU) : Bool :=
  nalu == stored.getD []

/-- `(*formatProcessorH264).updateTrackParametersFromRTPPacket`
(h264.go:114-135): extract SPS/PPS from the packet; if an extracted
parameter differs from the stored one, store the extracted parameters,
filling each missing one from the current Format. -/
def updateTrackParametersFromRTPPacketH264 (fmt : FormatH264)
    (payload : List Nat) : FormatH264 :=
  let ex := rtpH264ExtractSPSPPS payload
  let update :=
    (match ex.1 with
     | some s => !bytesEqualOpt s fmt.sps
     | none => false) ||
    (match ex.2 with
     | some p => !bytesEqualOpt p fmt.pps
     | none => false)
  if update then
    { sps := match ex.1 with
        | some s => some s
        | none => fmt.sps
      pps := match ex.2 with
        | some p => some p
        | none => fmt.pps }
  else fmt

/-- `(*formatProcessorH265).updateTrackParametersFromRTPPacket`
(h265.go:121-149). -/
def updateTrackParametersFromRTPPacketH265 (fmt : FormatH265)
    (payload : List Nat) : FormatH265 :=
  let ex := rtpH265ExtractVPSSPSPPS payload
  let update :=
    (match ex.1 with
     | some v => !bytesEqualOpt v fmt.vps
     | none => false) ||
    (match ex.2.1 with
     | some s => !bytesEqualOpt s fmt.sps
     | none => false) ||
    (match ex.2.2 with
     | some p => !bytesEqualOpt p fmt.pps
     | none => false)
  if update then
    { vps := match ex.1 with
        | some v => some v
        | none => fmt.vps
      sps := match ex.2.1 with
        | some s => some s
        | none => fmt.sps
      pps := match ex.2.2 with
        | some p => some p
        | none => fmt.pps }
  else fmt

/-- Loop of `(*formatProcessorH264).updateTrackParametersFromAU`
(h264.go:142-158): the locals `sps`, `pps` start at the stored parameters
and each NAL unit is compared against the *current local* value. -/
def updateAULoopH264 : AccessUnit → Option NALU → Option NALU → Bool →
    Option NALU × Option NALU × Bool
  | [], sps, pps, update => (sps, pps, update)
  | nalu :: rest, sps, pps, update =>
    let typ := naluTypeH264 nalu
    if typ == 7 then
      if bytesEqualOpt nalu sps then updateAULoopH264 rest sps pps update
      else updateAULoopH264 rest (some nalu) pps true
    else if typ == 8 then
      if bytesEqualOpt nalu pps then updateAULoopH264 rest sps pps update
      else updateAULoopH264 rest sps (some nalu) true
    else updateAULoopH264 rest sps pps update

/-- `(*formatProcessorH264).updateTrackParametersFromAU` (h264.go:137-163). -/
def updateTrackParametersFromAUH264 (fmt : FormatH264) (au : AccessUnit) :
    FormatH264 :=
  let r := updateAULoopH264 au fmt.sps fmt.pps false
  if r.2.2 then { sps := r.1, pps := r.2.1 } else fmt

/-- Loop of `(*formatProcessorH265).updateTrackParametersFromAU`
(h265.go:157-179).  NOTE: each NAL unit is compared against the
*currently-stored* Format parameter (`t.format.VPS` etc.), not against the
local accumulator, unlike the H.264 version. -/
def updateAULoopH265 (fmt : FormatH265) : AccessUnit → Option NALU →
    Option NALU → Option NALU → Bool →
    Option NALU × Option NALU × Option NALU × Bool
  | [], vps, sps, pps, update => (vps, sps, pps, update)
  | nalu :: rest, vps, sps, pps, update =>
    let typ := naluTypeH265 nalu
    if typ == 32 then
      if bytesEqualOpt nalu fmt.vps then updateAULoopH265 fmt rest vps sps pps update
      else updateAULoopH265 fmt rest (some nalu) sps pps true
    else if typ == 33 then
      if bytesEqualOpt nalu fmt.sps then updateAULoopH265 fmt rest vps sps pps update
      else updateAULoopH265 fmt rest vps (some nalu) pps true
    else if typ == 34 then
      if bytesEqualOpt nalu fmt.pps then updateAULoopH265 fmt rest vps sps pps update
      else updateAULoopH265 fmt rest vps sps (some nalu) true
    else updateAULoopH265 fmt rest vps sps pps update

/-- `(*formatProcessorH265).updateTrackParametersFromAU` (h265.go:151-184). -/
def updateTrackParametersFromAUH265 (fmt : FormatH265) (au : AccessUnit) :
    FormatH265 :=
  let r := updateAULoopH265 fmt au fmt.vps fmt.sps fmt.pps false
  if r.2.2.2 then { vps := r.1, sps := r.2.1, pps := r.2.2.1 } else fmt

/-! ### The `Process` entry points

`(*formatProcessorH264).Process` / `(*formatProcessorH265).Process` and
the VP9 / MPEG-1-audio `ProcessRTPPacket`.  The gortsplib RTP
decoder/encoder and the pion packet marshaller are external libraries;
they enter the model as oracle parameters (`decode`, `encode`, `setTs`)
and an abstract marshalled size.  `setTs` stands for the package's
`setTimestamp` helper (its file is not part of this source tree; per the
spec it only rewrites RTP timestamps from `PTS × clockRate / 1s`). -/

/-- The slice of an `rtp.Packet` the format processors read or write:
identity fields, payload, padding flags, and the abstract marshalled
size `marshalSizeNoPad` that `MarshalSize()` reports once padding has
been removed (the processors only call it after clearing padding). -/
structure RtpPacket where
  ssrc : Nat
  sequenceNumber : Nat
  payload : List Nat
  padding : Bool
  paddingSize : Nat
  marshalSizeNoPad : Nat
  deriving DecidableEq, Repr

/-- `pkt.MarshalSize()` for the packets of this model. -/
def RtpPacket.marshalSize (p : RtpPacket) : Nat :=
  p.marshalSizeNoPad + (if p.padding then p.paddingSize else 0)

/-- `pkt.Header.Padding = false; pkt.PaddingSize = 0`. -/
def RtpPacket.stripPadding (p : RtpPacket) : RtpPacket :=
  { p with padding := false, paddingSize := 0 }

/-- Outcome of a gortsplib RTP decoder call. -/
inductive DecodeResult where
  | ok (au : AccessUnit)
  | errMorePacketsNeeded
  | errNonStartingPacketAndNoPrevious
  | errOther
  deriving DecidableEq, Repr

/-- The configuration `createEncoder` seeds a lazily-created encoder with
(`SSRC` and `InitialSequenceNumber`; `none` for the eager encoder built
by `newH264`/`newH265`). -/
structure RtpEncoderCfg where
  ssrc : Option Nat
  initialSequenceNumber : Option Nat
  deriving DecidableEq, Repr

/-- State of a `formatProcessorH264`: the maximum payload size, the
format's parameter sets, the optional encoder and whether a decoder has
been created. -/
structure ProcH264 where
  udpMaxPayloadSize : Nat
  format : FormatH264
  encoder : Option RtpEncoderCfg
  hasDecoder : Bool
  deriving DecidableEq, Repr

/-- State of a `formatProcessorH265`. -/
structure ProcH265 where
  udpMaxPayloadSize : Nat
  format : FormatH265
  encoder : Option RtpEncoderCfg
  hasDecoder : Bool
  deriving DecidableEq, Repr

/-- A `unit.H264`/`unit.H265` as `Process` sees it: the RTP packet list
(`none` is a Go `nil` slice) and the access unit (`[]` is Go `nil`). -/
structure MediaUnit where
  rtpPackets : Option (List RtpPacket)
  au : AccessUnit
  deriving DecidableEq, Repr

/-- Errors `Process` can return (`indexPanic` models the Go runtime panic
on indexing an empty non-nil slice). -/
inductive ProcErr where
  | decodeError
  | encodeError
  | indexPanic
  deriving DecidableEq, Repr

/-- Tail of `Process` (h264.go:279-291): encode the access unit into RTP
packets when it is non-empty, otherwise clear the unit's packets. -/
def processEncodeTail (encode : AccessUnit → Option (List RtpPacket))
    (setTs : List RtpPacket → List RtpPacket)
    (encoder : Option RtpEncoderCfg) (u : MediaUnit) :
    MediaUnit × Option ProcErr :=
  if u.au.isEmpty then ({ u with rtpPackets := none }, none)
  else
    match encoder with
    | none => (u, some .indexPanic)
    | some _ =>
      match encode u.au with
      | none => (u, some .encodeError)
      | some pkts => ({ u with rtpPackets := some (setTs pkts) }, none)

/-- `(*formatProcessorH264).Process` (h264.go:223-292).  Returns the
processor state (Go mutates the receiver in place, so it is returned even
on error), the unit (also mutated in place) and the error. -/
def processH264 (decode : RtpPacket → DecodeResult)
    (encode : AccessUnit → Option (List RtpPacket))
    (setTs : List RtpPacket → List RtpPacket)
    (t : ProcH264) (u : MediaUnit) (hasNonRTSPReaders : Bool) :
    ProcH264 × MediaUnit × Option ProcErr :=
  match u.rtpPackets with
  | some [] => (t, u, some .indexPanic)
  | some (pkt :: rest) =>
    let t1 : ProcH264 :=
      { t with format := updateTrackParametersFromRTPPacketH264 t.format pkt.payload }
    -- encoder == nil: strip padding; oversize packets lazily create an encoder
    let pkt1 := if t1.encoder.isNone then pkt.stripPadding else pkt
    let t2 : ProcH264 :=
      if t1.encoder.isNone && decide (pkt1.marshalSize > t1.udpMaxPayloadSize) then
        { t1 with encoder := some ⟨some pkt.ssrc, some pkt.sequenceNumber⟩ }
      else t1
    -- pkt is a pointer into tunit.RTPPackets: padding removal is visible there
    let u1 : MediaUnit := { u with rtpPackets := some (pkt1 :: rest) }
    if hasNonRTSPReaders || t2.hasDecoder || t2.encoder.isSome then
      let t3 : ProcH264 := { t2 with hasDecoder := true }
      match decode pkt1 with
      | .errNonStartingPacketAndNoPrevious =>
        if t3.encoder.isSome then (t3, { u1 with rtpPackets := none }, none)
        else (t3, u1, none)
      | .errMorePacketsNeeded =>
        if t3.encoder.isSome then (t3, { u1 with rtpPackets := none }, none)
        else (t3, u1, none)
      | .errOther => (t3, u1, some .decodeError)
      | .ok au =>
        let u2 : MediaUnit := { u1 with au := remuxAccessUnitH264 t3.format au }
        if t3.encoder.isNone then (t3, u2, none)
        else
          let r := processEncodeTail encode setTs t3.encoder u2
          (t3, r.1, r.2)
    else if t2.encoder.isNone then (t2, u1, none)
    else
      let r := processEncodeTail encode setTs t2.encoder u1
      (t2, r.1, r.2)
  | none =>
    let t1 : ProcH264 :=
      { t with format := updateTrackParametersFromAUH264 t.format u.au }
    let u1 : MediaUnit := { u with au := remuxAccessUnitH264 t1.format u.au }
    let r := processEncodeTail encode setTs t1.encoder u1
    (t1, r.1, r.2)

/-- `(*formatProcessorH265).Process` (h265.go:245-314). -/
def processH265 (decode : RtpPacket → DecodeResult)
    (encode : AccessUnit → Option (List RtpPacket))
    (setTs : List RtpPacket → List RtpPacket)
    (t : ProcH265) (u : MediaUnit) (hasNonRTSPReaders : Bool) :
    ProcH265 × MediaUnit × Option ProcErr :=
  match u.rtpPackets with
  | some [] => (t, u, some .indexPanic)
  | some (pkt :: rest) =>
    let t1 : ProcH265 :=
      { t with format := updateTrackParametersFromRTPPacketH265 t.format pkt.payload }
    let pkt1 := if t1.encoder.isNone then pkt.stripPadding else pkt
    let t2 : ProcH265 :=
      if t1.encoder.isNone && decide (pkt1.marshalSize > t1.udpMaxPayloadSize) then
        { t1 with encoder := some ⟨some pkt.ssrc, some pkt.sequenceNumber⟩ }
      else t1
    let u1 : MediaUnit := { u with rtpPackets := some (pkt1 :: rest) }
    if hasNonRTSPReaders || t2.hasDecoder || t2.encoder.isSome then
      let t3 : ProcH265 := { t2 with hasDecoder := true }
      match decode pkt1 with
      | .errNonStartingPacketAndNoPrevious =>
        if t3.encoder.isSome then (t3, { u1 with rtpPackets := none }, none)
        else (t3, u1, none)
      | .errMorePacketsNeeded =>
        if t3.encoder.isSome then (t3, { u1 with rtpPackets := none }, none)
        else (t3, u1, none)
      | .errOther => (t3, u1, some .decodeError)
      | .ok au =>
        let u2 : MediaUnit := { u1 with au := remuxAccessUnitH265 t3.format au }
        if t3.encoder.isNone then (t3, u2, none)
        else
          let r := processEncodeTail encode setTs t3.encoder u2
          (t3, r.1, r.2)
    else if t2.encoder.isNone then (t2, u1, none)
    else
      let r := processEncodeTail encode setTs t2.encoder u1
      (t2, r.1, r.2)
  | none =>
    let t1 : ProcH265 :=
      { t with format := updateTrackParametersFromAUH265 t.format u.au }
    let u1 : MediaUnit := { u with au := remuxAccessUnitH265 t1.format u.au }
    let r := processEncodeTail encode setTs t1.encoder u1
    (t1, r.1, r.2)

/-- A `unit.VP9` as `ProcessRTPPacket` builds it. -/
structure UnitVP9 where
  rtpPackets : List RtpPacket
  frame : Option (List Nat)
  deriving DecidableEq, Repr

/-- Outcome of the VP9 RTP decoder. -/
inductive FrameDecodeResult where
  | ok (frame : List Nat)
  | errMorePacketsNeeded
  | errNonStartingPacketAndNoPrevious
  | errOther
  deriving DecidableEq, Repr

/-- Errors of `ProcessRTPPacket`. -/
inductive ProcessRTPErr where
  | payloadTooBig
  | decodeError
  deriving DecidableEq, Repr

/-- `(*formatProcessorVP9).ProcessRTPPacket` (vp9.go:67-113): the unit is
built around the (shared, padding-stripped) packet; oversize packets are
rejected; the two non-starting decode errors return the unit with no
decoded frame. -/
def processRTPPacketVP9 (decode : RtpPacket → FrameDecodeResult)
    (udpMaxPayloadSize : Nat) (hasDecoder : Bool)
    (pkt : RtpPacket) (hasNonRTSPReaders : Bool) :
    Bool × Except ProcessRTPErr UnitVP9 :=
  let pkt1 := pkt.stripPadding
  let u : UnitVP9 := { rtpPackets := [pkt1], frame := none }
  if pkt1.marshalSize > udpMaxPayloadSize then (hasDecoder, .error .payloadTooBig)
  else if hasNonRTSPReaders || hasDecoder then
    match decode pkt1 with
    | .ok frame => (true, .ok { u with frame := some frame })
    | .errMorePacketsNeeded => (true, .ok u)
    | .errNonStartingPacketAndNoPrevious => (true, .ok u)
    | .errOther => (true, .error .decodeError)
  else (hasDecoder, .ok u)

/-- A `unit.MPEG1Audio`. -/
structure UnitMPEG1Audio where
  rtpPackets : List RtpPacket
  frames : List (List Nat)
  deriving DecidableEq, Repr

/-- Outcome of the MPEG-1-audio RTP decoder. -/
inductive FramesDecodeResult where
  | ok (frames : List (List Nat))
  | errMorePacketsNeeded
  | errNonStartingPacketAndNoPrevious
  | errOther
  deriving DecidableEq, Repr

/-- `(*formatProcessorMPEG1Audio).ProcessRTPPacket` (mpeg1_audio.go:66-112);
`frames = []` is the Go `nil` slice. -/
def processRTPPacketMPEG1Audio (decode : RtpPacket → FramesDecodeResult)
    (udpMaxPayloadSize : Nat) (hasDecoder : Bool)
    (pkt : RtpPacket) (hasNonRTSPReaders : Bool) :
    Bool × Except ProcessRTPErr UnitMPEG1Audio :=
  let pkt1 := pkt.stripPadding
  let u : UnitMPEG1Audio := { rtpPackets := [pkt1], frames := [] }
  if pkt1.marshalSize > udpMaxPayloadSize then (hasDecoder, .error .payloadTooBig)
  else if hasNonRTSPReaders || hasDecoder then
    match decode pkt1 with
    | .ok frames => (true, .ok { u with frames := frames })
    | .errMorePacketsNeeded => (true, .ok u)
    | .errNonStartingPacketAndNoPrevious => (true, .ok u)
    | .errOther => (true, .error .decodeError)
  else (hasDecoder, .ok u)

/-! ### The path state machine (`internal/core/path.go`)

The per-path event loop `run` with its handlers.  Timers, external
commands, logging and channel plumbing are outside the model; the
on-demand timers survive only as the `pathOnDemandState` fields they
drive.  Held request lists are modelled by their lengths (`shouldClose`
and the handlers only ever append, flush or count them), the reader map
by its cardinality, and the stream by an abstract identifier. -/

/-- What `pa.source` points to: a `*sourceRedirect`, a `*sourceStatic`,
or a publisher identified by its author. -/
inductive SourceVal where
  | redirect
  | staticSource
  | publisher (author : Nat)
  deriving DecidableEq, Repr

/-- The fields of `conf.PathConf` the path handlers read.
`hasStaticSource`/`hasOnDemandStaticSource`/`hasOnDemandPublisher` stand
for the `conf` package predicates `HasStaticSource`,
`HasOnDemandStaticSource` and `HasOnDemandPublisher` (that package is not
part of this source tree; they are plain fields here). -/
structure PathConfModel where
  regexp : Bool
  source : String
  sourceRedirect : String
  fallback : String
  hasOnDemandStaticSource : Bool
  hasOnDemandPublisher : Bool
  disablePublisherOverride : Bool
  deriving DecidableEq, Repr

/-- `pathOnDemandState` (path.go:52-59). -/
inductive PathOnDemandState where
  | initial
  | waitingReady
  | ready
  | closing
  deriving DecidableEq, Repr

/-- The mutable fields of `path` the event loop touches. -/
structure PathState where
  conf : PathConfModel
  source : Option SourceVal
  stream : Option Nat
  readers : Nat
  describeRequestsOnHold : Nat
  readerAddRequestsOnHold : Nat
  onDemandStaticSourceState : PathOnDemandState
  onDemandPublisherState : PathOnDemandState
  deriving DecidableEq, Repr

/-- `(*path).shouldClose` (path.go:533-539). -/
def shouldClose (pa : PathState) : Bool :=
  pa.conf.regexp && pa.source.isNone && pa.readers == 0 &&
    pa.describeRequestsOnHold == 0 && pa.readerAddRequestsOnHold == 0

/-- `(*path).sourceSetNotReady` (path.go:660-678): evict every reader and
drop the stream. -/
def sourceSetNotReady (pa : PathState) : PathState :=
  { pa with readers := 0, stream := none }

/-- `(*path).doPublisherRemove` (path.go:684-690). -/
def doPublisherRemove (pa : PathState) : PathState :=
  let pa := if pa.stream.isSome then sourceSetNotReady pa else pa
  { pa with source := none }

/-- `(*path).onDemandStaticSourceStart` (timer effects elided). -/
def onDemandStaticSourceStart (pa : PathState) : PathState :=
  { pa with onDemandStaticSourceState := .waitingReady }

/-- `(*path).onDemandStaticSourceScheduleClose`. -/
def onDemandStaticSourceScheduleClose (pa : PathState) : PathState :=
  { pa with onDemandStaticSourceState := .closing }

/-- `(*path).onDemandStaticSourceStop` (path.go:574-583). -/
def onDemandStaticSourceStop (pa : PathState) : PathState :=
  { pa with onDemandStaticSourceState := .initial }

/-- `(*path).onDemandPublisherStart` (command/timer effects elided). -/
def onDemandPublisherStart (pa : PathState) : PathState :=
  { pa with onDemandPublisherState := .waitingReady }

/-- `(*path).onDemandPublisherScheduleClose`. -/
def onDemandPublisherScheduleClose (pa : PathState) : PathState :=
  { pa with onDemandPublisherState := .closing }

/-- `(*path).onDemandPublisherStop` (path.go:609-627): close and remove a
still-present source, then reset the on-demand state. -/
def onDemandPublisherStop (pa : PathState) : PathState :=
  let pa := if pa.source.isSome then doPublisherRemove pa else pa
  { pa with onDemandPublisherState := .initial }

/-- The URL fields of a describe request that `handleDescribe` reads
(`req.url.Scheme`, `req.url.User`, `req.url.Host`). -/
structure URLReq where
  scheme : String
  user : String
  host : String
  deriving DecidableEq, Repr

/-- A redirect target: either a configured string taken as is, or a URL
rebuilt from the request's scheme/user/host and an absolute path
(`url.URL{...}.String()` is external; the structure is kept). -/
inductive RedirectTarget where
  | raw (s : String)
  | rebuilt (scheme user host path : String)
  deriving DecidableEq, Repr

/-- Response of `handleDescribe`. -/
inductive DescribeRes where
  | redirect (target : RedirectTarget)
  | stream (id : Nat)
  | parked
  | errNoOnePublishing
  deriving DecidableEq, Repr

/-- `(*path).handleDescribe` (path.go:692-741). -/
def handleDescribe (pa : PathState) (req : URLReq) : PathState × DescribeRes :=
  if pa.source == some .redirect then
    (pa, .redirect (.raw pa.conf.sourceRedirect))
  else match pa.stream with
  | some sid => (pa, .stream sid)
  | none =>
    if pa.conf.hasOnDemandStaticSource then
      let pa := if pa.onDemandStaticSourceState == .initial then
          onDemandStaticSourceStart pa
        else pa
      ({ pa with describeRequestsOnHold := pa.describeRequestsOnHold + 1 }, .parked)
    else if pa.conf.hasOnDemandPublisher then
      let pa := if pa.onDemandPublisherState == .initial then
          onDemandPublisherStart pa
        else pa
      ({ pa with describeRequestsOnHold := pa.describeRequestsOnHold + 1 }, .parked)
    else if pa.conf.fallback != "" then
      (pa, .redirect (if pa.conf.fallback.startsWith "/" then
        .rebuilt req.scheme req.user req.host pa.conf.fallback
      else
        .raw pa.conf.fallback))
    else (pa, .errNoOnePublishing)

/-- The describe resolution order as the specification words it:
(1) redirect source → configured redirect URL; (2) stream ready → the
stream; (3) an on-demand static source or on-demand publisher configured
→ start it if in the Initial state and park; (4) fallback configured →
fallback URL, rewritten against the request URL when it starts with a
slash; (5) otherwise the "no one is publishing" error. -/
def describeSpec (pa : PathState) (req : URLReq) : PathState × DescribeRes :=
  if pa.source == some .redirect then
    (pa, .redirect (.raw pa.conf.sourceRedirect))
  else if pa.stream.isSome then
    (pa, .stream (pa.stream.getD 0))
  else if pa.conf.hasOnDemandStaticSource || pa.conf.hasOnDemandPublisher then
    let pa :=
      if pa.conf.hasOnDemandStaticSource then
        if pa.onDemandStaticSourceState == .initial then
          onDemandStaticSourceStart pa
        else pa
      else
        if pa.onDemandPublisherState == .initial then
          onDemandPublisherStart pa
        else pa
    ({ pa with describeRequestsOnHold := pa.describeRequestsOnHold + 1 }, .parked)
  else if pa.conf.fallback != "" then
    (pa, .redirect (if pa.conf.fallback.startsWith "/" then
      .rebuilt req.scheme req.user req.host pa.conf.fallback
    else
      .raw pa.conf.fallback))
  else (pa, .errNoOnePublishing)

/-- Response of `handlePublisherAdd`. -/
inductive PubAddRes where
  | ok
  | errSourceNotPublisher
  | errAlreadyPublishing
  deriving DecidableEq, Repr

/-- `(*path).handlePublisherAdd` (path.go:750-772). -/
def handlePublisherAdd (pa : PathState) (author : Nat) :
    PathState × PubAddRes :=
  if pa.conf.source != "publisher" then (pa, .errSourceNotPublisher)
  else
    match pa.source with
    | some _ =>
      if pa.conf.disablePublisherOverride then (pa, .errAlreadyPublishing)
      else
        let pa := doPublisherRemove pa
        ({ pa with source := some (.publisher author) }, .ok)
    | none => ({ pa with source := some (.publisher author) }, .ok)

/-- `(*path).handleReaderAddPost` (path.go:859-880): register the reader
and flip a Closing on-demand state back to Ready. -/
def handleReaderAddPost (pa : PathState) : PathState :=
  let pa := { pa with readers := pa.readers + 1 }
  if pa.conf.hasOnDemandStaticSource then
    if pa.onDemandStaticSourceState == .closing then
      { pa with onDemandStaticSourceState := .ready }
    else pa
  else if pa.conf.hasOnDemandPublisher then
    if pa.onDemandPublisherState == .closing then
      { pa with onDemandPublisherState := .ready }
    else pa
  else pa

/-- Flush `n` held add-reader requests through `handleReaderAddPost`. -/
def flushReaderAdds : Nat → PathState → PathState
  | 0, pa => pa
  | n + 1, pa => flushReaderAdds n (handleReaderAddPost pa)

/-- `(*path).handleReaderAdd` (path.go:834-857). -/
def handleReaderAdd (pa : PathState) : PathState :=
  if pa.stream.isSome then handleReaderAddPost pa
  else if pa.conf.hasOnDemandStaticSource then
    let pa := if pa.onDemandStaticSourceState == .initial then
        onDemandStaticSourceStart pa
      else pa
    { pa with readerAddRequestsOnHold := pa.readerAddRequestsOnHold + 1 }
  else if pa.conf.hasOnDemandPublisher then
    let pa := if pa.onDemandPublisherState == .initial then
        onDemandPublisherStart pa
      else pa
    { pa with readerAddRequestsOnHold := pa.readerAddRequestsOnHold + 1 }
  else pa

/-- `(*path).handleReaderRemove` (path.go:815-832). -/
def handleReaderRemove (pa : PathState) : PathState :=
  let pa := { pa with readers := pa.readers - 1 }
  if pa.readers == 0 then
    if pa.conf.hasOnDemandStaticSource then
      if pa.onDemandStaticSourceState == .ready then
        onDemandStaticSourceScheduleClose pa
      else pa
    else if pa.conf.hasOnDemandPublisher then
      if pa.onDemandPublisherState == .ready then
        onDemandPublisherScheduleClose pa
      else pa
    else pa
  else pa

/-- The `chSourceStaticSetReady` case of `run` (path.go:402-427):
`ok = false` models a `newStream` failure (error response, nothing else
happens); on success the stream is installed and, for on-demand static
paths, the close timer is armed and all held requests are flushed. -/
def handleSourceStaticSetReady (pa : PathState) (ok : Bool)
    (streamId : Nat) : PathState :=
  if !ok then pa
  else
    let pa := { pa with stream := some streamId }
    if pa.conf.hasOnDemandStaticSource then
      let pa := onDemandStaticSourceScheduleClose pa
      let pa := { pa with describeRequestsOnHold := 0 }
      let pa := flushReaderAdds pa.readerAddRequestsOnHold pa
      { pa with readerAddRequestsOnHold := 0 }
    else pa

/-- `(*path).handlePublisherStart` (path.go:774-806); `ok = false` models
a `sourceSetReady` (`newStream`) failure. -/
def handlePublisherStart (pa : PathState) (author : Nat) (ok : Bool)
    (streamId : Nat) : PathState :=
  if pa.source != some (.publisher author) then pa
  else if !ok then pa
  else
    let pa := { pa with stream := some streamId }
    if pa.conf.hasOnDemandPublisher then
      let pa := onDemandPublisherScheduleClose pa
      let pa := { pa with describeRequestsOnHold := 0 }
      let pa := flushReaderAdds pa.readerAddRequestsOnHold pa
      { pa with readerAddRequestsOnHold := 0 }
    else pa

/-- `(*path).handlePublisherStop` (path.go:808-813). -/
def handlePublisherStop (pa : PathState) (author : Nat) : PathState :=
  if pa.source == some (.publisher author) && pa.stream.isSome then
    sourceSetNotReady pa
  else pa

/-- `(*path).handlePublisherRemove` (path.go:743-748). -/
def handlePublisherRemove (pa : PathState) (author : Nat) : PathState :=
  if pa.source == some (.publisher author) then doPublisherRemove pa else pa

/-- The events the `run` select loop (path.go:341-488) reacts to, with
the data each handler consumes. -/
inductive PathEvent where
  | onDemandStaticSourceReadyTimerFired
  | onDemandStaticSourceCloseTimerFired
  | onDemandPublisherReadyTimerFired
  | onDemandPublisherCloseTimerFired
  | reloadConf (newConf : PathConfModel)
  | sourceStaticSetReady (ok : Bool) (streamId : Nat)
  | sourceStaticSetNotReady
  | describe (req : URLReq)
  | publisherRemove (author : Nat)
  | publisherAdd (author : Nat)
  | publisherStart (author : Nat) (ok : Bool) (streamId : Nat)
  | publisherStop (author : Nat)
  | readerAdd
  | readerRemove
  | apiPathsGet
  | ctxDone
  deriving DecidableEq, Repr

/-- Why the event loop returned. -/
inductive PathExit where
  | notInUse
  | terminated
  deriving DecidableEq, Repr

/-- After the handlers marked in `run` with `if pa.shouldClose() { return
fmt.Errorf("not in use") }`, exit when `shouldClose` holds. -/
def exitIfShouldClose (pa : PathState) : PathState × Option PathExit :=
  (pa, if shouldClose pa then some .notInUse else none)

/-- One iteration of the `run` select loop (path.go:341-488): dispatch the
event to its handler and apply the `shouldClose` check exactly where the
source does. -/
def pathStep (pa : PathState) : PathEvent → PathState × Option PathExit
  | .onDemandStaticSourceReadyTimerFired =>
    let pa := { pa with describeRequestsOnHold := 0, readerAddRequestsOnHold := 0 }
    exitIfShouldClose (onDemandStaticSourceStop pa)
  | .onDemandStaticSourceCloseTimerFired =>
    exitIfShouldClose (onDemandStaticSourceStop (sourceSetNotReady pa))
  | .onDemandPublisherReadyTimerFired =>
    let pa := { pa with describeRequestsOnHold := 0, readerAddRequestsOnHold := 0 }
    exitIfShouldClose (onDemandPublisherStop pa)
  | .onDemandPublisherCloseTimerFired =>
    exitIfShouldClose (onDemandPublisherStop pa)
  | .reloadConf newConf => ({ pa with conf := newConf }, none)
  | .sourceStaticSetReady ok streamId =>
    (handleSourceStaticSetReady pa ok streamId, none)
  | .sourceStaticSetNotReady =>
    let pa := sourceSetNotReady pa
    let pa := if pa.conf.hasOnDemandStaticSource &&
        pa.onDemandStaticSourceState != .initial then
      onDemandStaticSourceStop pa
    else pa
    exitIfShouldClose pa
  | .describe req => exitIfShouldClose (handleDescribe pa req).1
  | .publisherRemove author => exitIfShouldClose (handlePublisherRemove pa author)
  | .publisherAdd author => ((handlePublisherAdd pa author).1, none)
  | .publisherStart author ok streamId =>
    (handlePublisherStart pa author ok streamId, none)
  | .publisherStop author => exitIfShouldClose (handlePublisherStop pa author)
  | .readerAdd => exitIfShouldClose (handleReaderAdd pa)
  | .readerRemove => (handleReaderRemove pa, none)
  | .apiPathsGet => (pa, none)
  | .ctxDone => (pa, some .terminated)

/-- The events after whose handler `run` re-checks `shouldClose`. -/
def destroyChecked : PathEvent → Bool
  | .onDemandStaticSourceReadyTimerFired => true
  | .onDemandStaticSourceCloseTimerFired => true
  | .onDemandPublisherReadyTimerFired => true
  | .onDemandPublisherCloseTimerFired => true
  | .sourceStaticSetNotReady => true
  | .describe _ => true
  | .publisherRemove _ => true
  | .publisherStop _ => true
  | .readerAdd => true
  | _ => false

/-! ### Parameter-update events -/

/-- One call into the H.264 parameter updaters: an RTP packet payload
(`updateTrackParametersFromRTPPacket`) or an access unit
(`updateTrackParametersFromAU`). -/
inductive ParamEventH264 where
  | rtp (payload : List Nat)
  | au (accessUnit : AccessUnit)
  deriving DecidableEq, Repr

/-- Apply one H.264 parameter-update call. -/
def applyParamEventH264 (fmt : FormatH264) : ParamEventH264 → FormatH264
  | .rtp payload => updateTrackParametersFromRTPPacketH264 fmt payload
  | .au accessUnit => updateTrackParametersFromAUH264 fmt accessUnit

/-- The SPS values an H.264 parameter-update call observes in its input. -/
def observedSPSH264 : ParamEventH264 → List NALU
  | .rtp payload =>
    match (rtpH264ExtractSPSPPS payload).1 with
    | some s => [s]
    | none => []
  | .au accessUnit => accessUnit.filter (fun n => naluTypeH264 n == 7)

/-- The PPS values an H.264 parameter-update call observes in its input. -/
def observedPPSH264 : ParamEventH264 → List NALU
  | .rtp payload =>
    match (rtpH264ExtractSPSPPS payload).2 with
    | some p => [p]
    | none => []
  | .au accessUnit => accessUnit.filter (fun n => naluTypeH264 n == 8)

/-- One call into the H.265 parameter updaters. -/
inductive ParamEventH265 where
  | rtp (payload : List Nat)
  | au (accessUnit : AccessUnit)
  deriving DecidableEq, Repr

/-- Apply one H.265 parameter-update call. -/
def applyParamEventH265 (fmt : FormatH265) : ParamEventH265 → FormatH265
  | .rtp payload => updateTrackParametersFromRTPPacketH265 fmt payload
  | .au accessUnit => updateTrackParametersFromAUH265 fmt accessUnit

/-- The VPS values an H.265 parameter-update call observes in its input. -/
def observedVPSH265 : ParamEventH265 → List NALU
  | .rtp payload =>
    match (rtpH265ExtractVPSSPSPPS payload).1 with
    | some v => [v]
    | none => []
  | .au accessUnit => accessUnit.filter (fun n => naluTypeH265 n == 32)

/-- The SPS values an H.265 parameter-update call observes in its input. -/
def observedSPSH265 : ParamEventH265 → List NALU
  | .rtp payload =>
    match (rtpH265ExtractVPSSPSPPS payload).2.1 with
    | some s => [s]
    | none => []
  | .au accessUnit => accessUnit.filter (fun n => naluTypeH265 n == 33)

/-- The PPS values an H.265 parameter-update call observes in its input. -/
def observedPPSH265 : ParamEventH265 → List NALU
  | .rtp payload =>
    match (rtpH265ExtractVPSSPSPPS payload).2.2 with
    | some p => [p]
    | none => []
  | .au accessUnit => accessUnit.filter (fun n => naluTypeH265 n == 34)

/-- The last NAL unit of type `t` in the access unit that differs from the
stored parameter, falling back to the stored parameter: this is what the
H.265 `updateTrackParametersFromAU` records for each parameter kind. -/
def lastObservedDiffering (typeOf : NALU → Nat) (t : Nat)
    (stored : Option NALU) (au : AccessUnit) : Option NALU :=
  match (au.filter (fun n => typeOf n == t && !bytesEqualOpt n stored)).getLast? with
  | some n => some n
  | none => stored

/-! ### Characterisation of the remux first pass -/

theorem remuxScanH264_eq (fmt : FormatH264) (au : AccessUnit) (k : Bool) (n : Nat) :
    remuxScanH264 fmt au k n =
      (k || au.any h264IsIDR,
       n + (au.filter h264Keep).length +
         (if !k && au.any h264IsIDR && fmt.sps.isSome && fmt.pps.isSome then 2 else 0)) := by
  induction au generalizing k n with
  | nil => simp [remuxScanH264]
  | cons nalu rest ih =>
    simp only [remuxScanH264]
    by_cases h7 : naluTypeH264 nalu = 7
    · simp [h7, ih, h264Keep, h264IsIDR, beq_iff_eq, Nat.add_assoc, Nat.add_comm,
        Nat.add_left_comm]
    · by_cases h8 : naluTypeH264 nalu = 8
      · simp [h8, ih, h264Keep, h264IsIDR, beq_iff_eq, Nat.add_assoc, Nat.add_comm,
          Nat.add_left_comm]
      · by_cases h9 : naluTypeH264 nalu = 9
        · simp [h9, ih, h264Keep, h264IsIDR, beq_iff_eq, Nat.add_assoc, Nat.add_comm,
            Nat.add_left_comm]
        · by_cases h5 : naluTypeH264 nalu = 5
          · cases k with
            | true =>
              simp [h5, ih, h264Keep, h264IsIDR, beq_iff_eq, Nat.add_assoc,
                Nat.add_comm, Nat.add_left_comm]
            | false =>
              cases hs : fmt.sps <;> cases hp2 : fmt.pps <;>
                simp [h5, ih, h264Keep, h264IsIDR, beq_iff_eq, hs, hp2,
                  Nat.add_assoc, Nat.add_comm, Nat.add_left_comm]
          · have h5x : (naluTypeH264 nalu == 5) = false := by simpa using h5
            simp [h5x, h5, h7, h8, h9, ih, h264Keep, h264IsIDR, beq_iff_eq,
              Nat.add_assoc, Nat.add_comm, Nat.add_left_comm]

theorem remuxScanH265_eq (fmt : FormatH265) (au : AccessUnit) (k : Bool) (n : Nat) :
    remuxScanH265 fmt au k n =
      (k || au.any h265IsKeyFrame,
       n + (au.filter h265Keep).length +
         (if !k && au.any h265IsKeyFrame && fmt.vps.isSome && fmt.sps.isSome
             && fmt.pps.isSome then 3 else 0)) := by
  induction au generalizing k n with
  | nil => simp [remuxScanH265]
  | cons nalu rest ih =>
    simp only [remuxScanH265]
    by_cases h32 : naluTypeH265 nalu = 32
    · simp [h32, ih, h265Keep, h265IsKeyFrame, beq_iff_eq, Nat.add_assoc,
        Nat.add_comm, Nat.add_left_comm]
    · by_cases h33 : naluTypeH265 nalu = 33
      · simp [h33, ih, h265Keep, h265IsKeyFrame, beq_iff_eq, Nat.add_assoc,
          Nat.add_comm, Nat.add_left_comm]
      · by_cases h34 : naluTypeH265 nalu = 34
        · simp [h34, ih, h265Keep, h265IsKeyFrame, beq_iff_eq, Nat.add_assoc,
            Nat.add_comm, Nat.add_left_comm]
        · by_cases h35 : naluTypeH265 nalu = 35
          · simp [h35, ih, h265Keep, h265IsKeyFrame, beq_iff_eq, Nat.add_assoc,
              Nat.add_comm, Nat.add_left_comm]
          · by_cases hkf : naluTypeH265 nalu = 19 ∨ naluTypeH265 nalu = 20
                ∨ naluTypeH265 nalu = 21
            · have hkfb : h265IsKeyFrame nalu = true := by
                simp only [h265IsKeyFrame]
                rcases hkf with h | h | h <;> simp [h]
              cases k with
              | true =>
                rcases hkf with h | h | h <;>
                  simp [h, hkfb, ih, h265Keep, h265IsKeyFrame, beq_iff_eq,
                    Nat.add_assoc, Nat.add_comm, Nat.add_left_comm]
              | false =>
                rcases hkf with h | h | h <;>
                  cases hv : fmt.vps <;> cases hs : fmt.sps <;> cases hp2 : fmt.pps <;>
                    simp [h, hkfb, ih, h265Keep, h265IsKeyFrame, beq_iff_eq, hv, hs, hp2,
                      Nat.add_assoc, Nat.add_comm, Nat.add_left_comm]
            · push_neg at hkf
              obtain ⟨h19, h20, h21⟩ := hkf
              have hkfb : h265IsKeyFrame nalu = false := by
                simp [h265IsKeyFrame, h19, h20, h21]
              have h19x : (naluTypeH265 nalu == 19) = false := by simpa using h19
              have h20x : (naluTypeH265 nalu == 20) = false := by simpa using h20
              have h21x : (naluTypeH265 nalu == 21) = false := by simpa using h21
              simp [h19, h20, h21, h19x, h20x, h21x, h32, h33, h34, h35, hkfb, ih,
                h265Keep, h265IsKeyFrame, beq_iff_eq, Nat.add_assoc, Nat.add_comm,
                Nat.add_left_comm]

/-- A NAL unit that survives the filter conjoined with a predicate implying
survival: filtering first does not change `any`. -/
theorem filter_any_of_imp {p q : NALU → Bool} (h : ∀ n, q n = true → p n = true)
    (au : AccessUnit) : (au.filter p).any q = au.any q := by
  induction au with
  | nil => simp
  | cons nalu rest ih =>
    by_cases hp : p nalu = true
    · simp [List.filter_cons, hp, List.any_cons, ih]
    · have hq : q nalu = false := by
        cases hqv : q nalu
        · rfl
        · exact absurd (h nalu hqv) hp
      simp [List.filter_cons, hp, List.any_cons, ih, hq]

theorem h264Keep_of_isIDR {nalu : NALU} (h : h264IsIDR nalu = true) :
    h264Keep nalu = true := by
  simp only [h264IsIDR, beq_iff_eq] at h
  simp [h264Keep, h]

theorem h265Keep_of_isKeyFrame {nalu : NALU} (h : h265IsKeyFrame nalu = true) :
    h265Keep nalu = true := by
  simp only [h265IsKeyFrame, beq_iff_eq] at h
  rcases Bool.or_eq_true_iff.mp h with h' | h'
  · rcases Bool.or_eq_true_iff.mp h' with h'' | h'' <;> simp_all [h265Keep]
  · simp_all [h265Keep]

theorem remuxAccessUnitH264_eq_spec (fmt : FormatH264) (au : AccessUnit) :
    remuxAccessUnitH264 fmt au = remuxSpecH264 fmt au := by
  have hany : (au.filter h264Keep).any h264IsIDR = au.any h264IsIDR :=
    filter_any_of_imp (fun _ h => h264Keep_of_isIDR h) au
  unfold remuxAccessUnitH264 remuxSpecH264
  rw [remuxScanH264_eq]
  by_cases hf : au.filter h264Keep = []
  · have h0 : au.any h264IsIDR = false := by rw [← hany, hf]; simp
    simp [hf, h0]
  · have hl : (au.filter h264Keep).length ≠ 0 := fun h => hf (List.length_eq_zero.mp h)
    have hisEmpty : (au.filter h264Keep).isEmpty = false := by
      simp [List.isEmpty_iff, hf]
    by_cases hc : (au.any h264IsIDR && fmt.sps.isSome && fmt.pps.isSome) = true
    · simp only [Bool.and_eq_true] at hc
      simp [hisEmpty, hany, hc.1.1, hc.1.2, hc.2, hl]
    · simp only [Bool.and_eq_true, not_and] at hc
      by_cases hidr : au.any h264IsIDR = true
      · by_cases hsps : fmt.sps.isSome = true
        · have hpps : fmt.pps.isSome = false := by
            cases hv : fmt.pps.isSome
            · rfl
            · exact absurd hv (hc ⟨hidr, hsps⟩)
          simp [hisEmpty, hany, hidr, hsps, hpps, hl]
        · have hsps' : fmt.sps.isSome = false := by
            cases hv : fmt.sps.isSome
            · rfl
            · exact absurd hv hsps
          simp [hisEmpty, hany, hidr, hsps', hl]
      · have hidr' : au.any h264IsIDR = false := by
          cases hv : au.any h264IsIDR
          · rfl
          · exact absurd hv hidr
        simp [hisEmpty, hany, hidr', hl]

theorem remuxAccessUnitH265_eq_spec (fmt : FormatH265) (au : AccessUnit) :
    remuxAccessUnitH265 fmt au = remuxSpecH265 fmt au := by
  have hany : (au.filter h265Keep).any h265IsKeyFrame = au.any h265IsKeyFrame :=
    filter_any_of_imp (fun _ h => h265Keep_of_isKeyFrame h) au
  unfold remuxAccessUnitH265 remuxSpecH265
  rw [remuxScanH265_eq]
  by_cases hf : au.filter h265Keep = []
  · have h0 : au.any h265IsKeyFrame = false := by rw [← hany, hf]; simp
    simp [hf, h0]
  · have hl : (au.filter h265Keep).length ≠ 0 := fun h => hf (List.length_eq_zero.mp h)
    have hisEmpty : (au.filter h265Keep).isEmpty = false := by
      simp [List.isEmpty_iff, hf]
    by_cases hidr : au.any h265IsKeyFrame = true
    · by_cases hv : fmt.vps.isSome = true
      · by_cases hs : fmt.sps.isSome = true
        · by_cases hp : fmt.pps.isSome = true
          · simp [hisEmpty, hany, hidr, hv, hs, hp, hl]
          · have hp' : fmt.pps.isSome = false := by
              cases hx : fmt.pps.isSome
              · rfl
              · exact absurd hx hp
            simp [hisEmpty, hany, hidr, hv, hs, hp', hl]
        · have hs' : fmt.sps.isSome = false := by
            cases hx : fmt.sps.isSome
            · rfl
            · exact absurd hx hs
          simp [hisEmpty, hany, hidr, hv, hs', hl]
      · have hv' : fmt.vps.isSome = false := by
          cases hx : fmt.vps.isSome
          · rfl
          · exact absurd hx hv
        simp [hisEmpty, hany, hidr, hv', hl]
    · have hidr' : au.any h265IsKeyFrame = false := by
        cases hx : au.any h265IsKeyFrame
        · rfl
        · exact absurd hx hidr
      simp [hisEmpty, hany, hidr', hl]

theorem filter_self_eq {p : NALU → Bool} (l : AccessUnit) :
    (l.filter p).filter p = l.filter p := by
  induction l with
  | nil => simp
  | cons a t ih =>
    by_cases h : p a = true
    · simp [List.filter_cons, h, ih]
    · have h' : p a = false := by
        cases hx : p a
        · rfl
        · exact absurd hx h
      simp [List.filter_cons, h', ih]

theorem remuxSpecH264_idem (fmt : FormatH264) (au : AccessUnit)
    (hsps : ∀ s, fmt.sps = some s → naluTypeH264 s = 7)
    (hpps : ∀ p, fmt.pps = some p → naluTypeH264 p = 8) :
    remuxSpecH264 fmt (remuxSpecH264 fmt au) = remuxSpecH264 fmt au := by
  have hany : (au.filter h264Keep).any h264IsIDR = au.any h264IsIDR :=
    filter_any_of_imp (fun _ h => h264Keep_of_isIDR h) au
  by_cases hf : au.filter h264Keep = []
  · have h1 : remuxSpecH264 fmt au = [] := by
      unfold remuxSpecH264
      simp [hf]
    rw [h1]
    unfold remuxSpecH264
    simp
  · have hisEmpty : (au.filter h264Keep).isEmpty = false := by
      simp [List.isEmpty_iff, hf]
    by_cases hc : (au.any h264IsIDR && fmt.sps.isSome && fmt.pps.isSome) = true
    · obtain ⟨⟨hidr, hs⟩, hp⟩ := by
        simpa only [Bool.and_eq_true] using hc
      obtain ⟨s, hs'⟩ := Option.isSome_iff_exists.mp hs
      obtain ⟨p, hp'⟩ := Option.isSome_iff_exists.mp hp
      have r_eq : remuxSpecH264 fmt au = s :: p :: au.filter h264Keep := by
        unfold remuxSpecH264
        simp [hisEmpty, hany, hidr, hs', hp']
      rw [r_eq]
      unfold remuxSpecH264
      have hks : h264Keep s = false := by simp [h264Keep, hsps s hs']
      have hkp : h264Keep p = false := by simp [h264Keep, hpps p hp']
      have hfidr : (au.filter h264Keep).any h264IsIDR = true := by rw [hany]; exact hidr
      simp [List.filter_cons, hks, hkp, filter_self_eq, hisEmpty, hs', hp', hfidr,
        filter_any_of_imp (fun _ h => h264Keep_of_isIDR h)]
    · have r_eq : remuxSpecH264 fmt au = au.filter h264Keep := by
        unfold remuxSpecH264
        have hc' : (au.any h264IsIDR && fmt.sps.isSome && fmt.pps.isSome) = false := by
          cases hx : (au.any h264IsIDR && fmt.sps.isSome && fmt.pps.isSome)
          · rfl
          · exact absurd hx hc
        simp only [hisEmpty, hany, hc', Bool.false_eq_true, if_false]
      rw [r_eq]
      unfold remuxSpecH264
      have hc2 : ((au.filter h264Keep).any h264IsIDR && fmt.sps.isSome
          && fmt.pps.isSome) = false := by
        rw [hany]
        cases hx : (au.any h264IsIDR && fmt.sps.isSome && fmt.pps.isSome)
        · rfl
        · exact absurd hx hc
      simp only [filter_self_eq, hisEmpty, hc2]
      rfl

theorem remuxSpecH265_idem (fmt : FormatH265) (au : AccessUnit)
    (hvps : ∀ v, fmt.vps = some v → naluTypeH265 v = 32)
    (hsps : ∀ s, fmt.sps = some s → naluTypeH265 s = 33)
    (hpps : ∀ p, fmt.pps = some p → naluTypeH265 p = 34) :
    remuxSpecH265 fmt (remuxSpecH265 fmt au) = remuxSpecH265 fmt au := by
  have hany : (au.filter h265Keep).any h265IsKeyFrame = au.any h265IsKeyFrame :=
    filter_any_of_imp (fun _ h => h265Keep_of_isKeyFrame h) au
  by_cases hf : au.filter h265Keep = []
  · have h1 : remuxSpecH265 fmt au = [] := by
      unfold remuxSpecH265
      simp [hf]
    rw [h1]
    unfold remuxSpecH265
    simp
  · have hisEmpty : (au.filter h265Keep).isEmpty = false := by
      simp [List.isEmpty_iff, hf]
    by_cases hc : (au.any h265IsKeyFrame && fmt.vps.isSome && fmt.sps.isSome
        && fmt.pps.isSome) = true
    · obtain ⟨⟨⟨hidr, hv⟩, hs⟩, hp⟩ := by
        simpa only [Bool.and_eq_true] using hc
      obtain ⟨v, hv'⟩ := Option.isSome_iff_exists.mp hv
      obtain ⟨s, hs'⟩ := Option.isSome_iff_exists.mp hs
      obtain ⟨p, hp'⟩ := Option.isSome_iff_exists.mp hp
      have r_eq : remuxSpecH265 fmt au = v :: s :: p :: au.filter h265Keep := by
        unfold remuxSpecH265
        simp [hisEmpty, hany, hidr, hv', hs', hp']
      rw [r_eq]
      unfold remuxSpecH265
      have hkv : h265Keep v = false := by simp [h265Keep, hvps v hv']
      have hks : h265Keep s = false := by simp [h265Keep, hsps s hs']
      have hkp : h265Keep p = false := by simp [h265Keep, hpps p hp']
      have hfidr : (au.filter h265Keep).any h265IsKeyFrame = true := by
        rw [hany]; exact hidr
      simp [List.filter_cons, hkv, hks, hkp, filter_self_eq, hisEmpty, hv', hs', hp',
        hfidr, filter_any_of_imp (fun _ h => h265Keep_of_isKeyFrame h)]
    · have hcf : (au.any h265IsKeyFrame && fmt.vps.isSome && fmt.sps.isSome
          && fmt.pps.isSome) = false := by
        cases hx : (au.any h265IsKeyFrame && fmt.vps.isSome && fmt.sps.isSome
            && fmt.pps.isSome)
        · rfl
        · exact absurd hx hc
      have r_eq : remuxSpecH265 fmt au = au.filter h265Keep := by
        unfold remuxSpecH265
        simp only [hisEmpty, hany, hcf, Bool.false_eq_true, if_false]
      rw [r_eq]
      unfold remuxSpecH265
      have hc2 : ((au.filter h265Keep).any h265IsKeyFrame && fmt.vps.isSome
          && fmt.sps.isSome && fmt.pps.isSome) = false := by
        rw [hany]; exact hcf
      simp only [filter_self_eq, hisEmpty, hc2]
      rfl

/-! ### Parameter-update lemmas -/

theorem rtpUpdateH264_sps_char (fmt : FormatH264) (payload : List Nat) :
    (updateTrackParametersFromRTPPacketH264 fmt payload).sps = fmt.sps ∨
    ∃ s, (rtpH264ExtractSPSPPS payload).1 = some s ∧
      (updateTrackParametersFromRTPPacketH264 fmt payload).sps = some s := by
  cases hex : (rtpH264ExtractSPSPPS payload).1 with
  | none =>
    left
    unfold updateTrackParametersFromRTPPacketH264
    dsimp only
    rw [hex]
    split
    · rfl
    · rfl
  | some s =>
    unfold updateTrackParametersFromRTPPacketH264
    dsimp only
    rw [hex]
    split
    · right
      exact ⟨s, rfl, rfl⟩
    · left
      rfl

theorem rtpUpdateH264_pps_char (fmt : FormatH264) (payload : List Nat) :
    (updateTrackParametersFromRTPPacketH264 fmt payload).pps = fmt.pps ∨
    ∃ p, (rtpH264ExtractSPSPPS payload).2 = some p ∧
      (updateTrackParametersFromRTPPacketH264 fmt payload).pps = some p := by
  cases hex : (rtpH264ExtractSPSPPS payload).2 with
  | none =>
    left
    unfold updateTrackParametersFromRTPPacketH264
    dsimp only
    rw [hex]
    split
    · rfl
    · rfl
  | some p =>
    unfold updateTrackParametersFromRTPPacketH264
    dsimp only
    rw [hex]
    split
    · right
      exact ⟨p, rfl, rfl⟩
    · left
      rfl

theorem rtpUpdateH265_vps_char (fmt : FormatH265) (payload : List Nat) :
    (updateTrackParametersFromRTPPacketH265 fmt payload).vps = fmt.vps ∨
    ∃ v, (rtpH265ExtractVPSSPSPPS payload).1 = some v ∧
      (updateTrackParametersFromRTPPacketH265 fmt payload).vps = some v := by
  cases hex : (rtpH265ExtractVPSSPSPPS payload).1 with
  | none =>
    left
    unfold updateTrackParametersFromRTPPacketH265
    dsimp only
    rw [hex]
    split
    · rfl
    · rfl
  | some v =>
    unfold updateTrackParametersFromRTPPacketH265
    dsimp only
    rw [hex]
    split
    · right
      exact ⟨v, rfl, rfl⟩
    · left
      rfl

theorem rtpUpdateH265_sps_char (fmt : FormatH265) (payload : List Nat) :
    (updateTrackParametersFromRTPPacketH265 fmt payload).sps = fmt.sps ∨
    ∃ s, (rtpH265ExtractVPSSPSPPS payload).2.1 = some s ∧
      (updateTrackParametersFromRTPPacketH265 fmt payload).sps = some s := by
  cases hex : (rtpH265ExtractVPSSPSPPS payload).2.1 with
  | none =>
    left
    unfold updateTrackParametersFromRTPPacketH265
    dsimp only
    rw [hex]
    split
    · rfl
    · rfl
  | some s =>
    unfold updateTrackParametersFromRTPPacketH265
    dsimp only
    rw [hex]
    split
    · right
      exact ⟨s, rfl, rfl⟩
    · left
      rfl

theorem rtpUpdateH265_pps_char (fmt : FormatH265) (payload : List Nat) :
    (updateTrackParametersFromRTPPacketH265 fmt payload).pps = fmt.pps ∨
    ∃ p, (rtpH265ExtractVPSSPSPPS payload).2.2 = some p ∧
      (updateTrackParametersFromRTPPacketH265 fmt payload).pps = some p := by
  cases hex : (rtpH265ExtractVPSSPSPPS payload).2.2 with
  | none =>
    left
    unfold updateTrackParametersFromRTPPacketH265
    dsimp only
    rw [hex]
    split
    · rfl
    · rfl
  | some p =>
    unfold updateTrackParametersFromRTPPacketH265
    dsimp only
    rw [hex]
    split
    · right
      exact ⟨p, rfl, rfl⟩
    · left
      rfl

theorem updateAULoopH264_sps_char (au : AccessUnit) (sps pps : Option NALU)
    (update : Bool) :
    (updateAULoopH264 au sps pps update).1 = sps ∨
    ∃ n ∈ au, naluTypeH264 n = 7 ∧ (updateAULoopH264 au sps pps update).1 = some n := by
  induction au generalizing sps pps update with
  | nil => left; rfl
  | cons nalu rest ih =>
    unfold updateAULoopH264
    dsimp only
    by_cases h7 : naluTypeH264 nalu = 7
    · by_cases hb : bytesEqualOpt nalu sps = true
      · simp only [h7, beq_self_eq_true, if_true, hb]
        rcases ih sps pps update with h | ⟨n, hmem, ht, h⟩
        · left; exact h
        · right; exact ⟨n, List.mem_cons_of_mem _ hmem, ht, h⟩
      · have hb' : bytesEqualOpt nalu sps = false := by
          cases hx : bytesEqualOpt nalu sps
          · rfl
          · exact absurd hx hb
        simp only [h7, beq_self_eq_true, if_true, hb', Bool.false_eq_true, if_false]
        rcases ih (some nalu) pps true with h | ⟨n, hmem, ht, h⟩
        · right; exact ⟨nalu, List.mem_cons_self _ _, h7, h⟩
        · right; exact ⟨n, List.mem_cons_of_mem _ hmem, ht, h⟩
    · have h7x : (naluTypeH264 nalu == 7) = false := by simpa using h7
      simp only [h7x, Bool.false_eq_true, if_false]
      by_cases h8 : naluTypeH264 nalu = 8
      · by_cases hb : bytesEqualOpt nalu pps = true
        · simp only [h8, beq_self_eq_true, if_true, hb]
          rcases ih sps pps update with h | ⟨n, hmem, ht, h⟩
          · left; exact h
          · right; exact ⟨n, List.mem_cons_of_mem _ hmem, ht, h⟩
        · have hb' : bytesEqualOpt nalu pps = false := by
            cases hx : bytesEqualOpt nalu pps
            · rfl
            · exact absurd hx hb
          simp only [h8, beq_self_eq_true, if_true, hb', Bool.false_eq_true, if_false]
          rcases ih sps (some nalu) true with h | ⟨n, hmem, ht, h⟩
          · left; exact h
          · right; exact ⟨n, List.mem_cons_of_mem _ hmem, ht, h⟩
      · have h8x : (naluTypeH264 nalu == 8) = false := by simpa using h8
        simp only [h8x, Bool.false_eq_true, if_false]
        rcases ih sps pps update with h | ⟨n, hmem, ht, h⟩
        · left; exact h
        · right; exact ⟨n, List.mem_cons_of_mem _ hmem, ht, h⟩

theorem updateAULoopH264_pps_char (au : AccessUnit) (sps pps : Option NALU)
    (update : Bool) :
    (updateAULoopH264 au sps pps update).2.1 = pps ∨
    ∃ n ∈ au, naluTypeH264 n = 8 ∧
      (updateAULoopH264 au sps pps update).2.1 = some n := by
  induction au generalizing sps pps update with
  | nil => left; rfl
  | cons nalu rest ih =>
    unfold updateAULoopH264
    dsimp only
    by_cases h7 : naluTypeH264 nalu = 7
    · by_cases hb : bytesEqualOpt nalu sps = true
      · simp only [h7, beq_self_eq_true, if_true, hb]
        rcases ih sps pps update with h | ⟨n, hmem, ht, h⟩
        · left; exact h
        · right; exact ⟨n, List.mem_cons_of_mem _ hmem, ht, h⟩
      · have hb' : bytesEqualOpt nalu sps = false := by
          cases hx : bytesEqualOpt nalu sps
          · rfl
          · exact absurd hx hb
        simp only [h7, beq_self_eq_true, if_true, hb', Bool.false_eq_true, if_false]
        rcases ih (some nalu) pps true with h | ⟨n, hmem, ht, h⟩
        · left; exact h
        · right; exact ⟨n, List.mem_cons_of_mem _ hmem, ht, h⟩
    · have h7x : (naluTypeH264 nalu == 7) = false := by simpa using h7
      simp only [h7x, Bool.false_eq_true, if_false]
      by_cases h8 : naluTypeH264 nalu = 8
      · by_cases hb : bytesEqualOpt nalu pps = true
        · simp only [h8, beq_self_eq_true, if_true, hb]
          rcases ih sps pps update with h | ⟨n, hmem, ht, h⟩
          · left; exact h
          · right; exact ⟨n, List.mem_cons_of_mem _ hmem, ht, h⟩
        · have hb' : bytesEqualOpt nalu pps = false := by
            cases hx : bytesEqualOpt nalu pps
            · rfl
            · exact absurd hx hb
          simp only [h8, beq_self_eq_true, if_true, hb', Bool.false_eq_true, if_false]
          rcases ih sps (some nalu) true with h | ⟨n, hmem, ht, h⟩
          · right; exact ⟨nalu, List.mem_cons_self _ _, h8, h⟩
          · right; exact ⟨n, List.mem_cons_of_mem _ hmem, ht, h⟩
      · have h8x : (naluTypeH264 nalu == 8) = false := by simpa using h8
        simp only [h8x, Bool.false_eq_true, if_false]
        rcases ih sps pps update with h | ⟨n, hmem, ht, h⟩
        · left; exact h
        · right; exact ⟨n, List.mem_cons_of_mem _ hmem, ht, h⟩

theorem updateAULoopH264_sps_unobserved (au : AccessUnit) (sps pps : Option NALU)
    (update : Bool) (h : ∀ n ∈ au, naluTypeH264 n ≠ 7) :
    (updateAULoopH264 au sps pps update).1 = sps := by
  induction au generalizing sps pps update with
  | nil => rfl
  | cons nalu rest ih =>
    unfold updateAULoopH264
    dsimp only
    have h7 := h nalu (List.mem_cons_self _ _)
    have h7x : (naluTypeH264 nalu == 7) = false := by simpa using h7
    have hrest : ∀ n ∈ rest, naluTypeH264 n ≠ 7 :=
      fun n hn => h n (List.mem_cons_of_mem _ hn)
    simp only [h7x, Bool.false_eq_true, if_false]
    by_cases h8 : naluTypeH264 nalu = 8
    · by_cases hb : bytesEqualOpt nalu pps = true
      · simp only [h8, beq_self_eq_true, if_true, hb]
        exact ih sps pps update hrest
      · have hb' : bytesEqualOpt nalu pps = false := by
          cases hx : bytesEqualOpt nalu pps
          · rfl
          · exact absurd hx hb
        simp only [h8, beq_self_eq_true, if_true, hb', Bool.false_eq_true, if_false]
        exact ih sps (some nalu) true hrest
    · have h8x : (naluTypeH264 nalu == 8) = false := by simpa using h8
      simp only [h8x, Bool.false_eq_true, if_false]
      exact ih sps pps update hrest

theorem updateAULoopH264_pps_unobserved (au : AccessUnit) (sps pps : Option NALU)
    (update : Bool) (h : ∀ n ∈ au, naluTypeH264 n ≠ 8) :
    (updateAULoopH264 au sps pps update).2.1 = pps := by
  induction au generalizing sps pps update with
  | nil => rfl
  | cons nalu rest ih =>
    unfold updateAULoopH264
    dsimp only
    have h8 := h nalu (List.mem_cons_self _ _)
    have h8x : (naluTypeH264 nalu == 8) = false := by simpa using h8
    have hrest : ∀ n ∈ rest, naluTypeH264 n ≠ 8 :=
      fun n hn => h n (List.mem_cons_of_mem _ hn)
    by_cases h7 : naluTypeH264 nalu = 7
    · by_cases hb : bytesEqualOpt nalu sps = true
      · simp only [h7, beq_self_eq_true, if_true, hb]
        exact ih sps pps update hrest
      · have hb' : bytesEqualOpt nalu sps = false := by
          cases hx : bytesEqualOpt nalu sps
          · rfl
          · exact absurd hx hb
        simp only [h7, beq_self_eq_true, if_true, hb', Bool.false_eq_true, if_false]
        exact ih (some nalu) pps true hrest
    · have h7x : (naluTypeH264 nalu == 7) = false := by simpa using h7
      simp only [h7x, h8x, Bool.false_eq_true, if_false]
      exact ih sps pps update hrest

theorem updateAUH264_sps_char (fmt : FormatH264) (au : AccessUnit) :
    (updateTrackParametersFromAUH264 fmt au).sps = fmt.sps ∨
    ∃ n ∈ au, naluTypeH264 n = 7 ∧
      (updateTrackParametersFromAUH264 fmt au).sps = some n := by
  unfold updateTrackParametersFromAUH264
  dsimp only
  split
  · exact updateAULoopH264_sps_char au fmt.sps fmt.pps false
  · left; rfl

theorem updateAUH264_pps_char (fmt : FormatH264) (au : AccessUnit) :
    (updateTrackParametersFromAUH264 fmt au).pps = fmt.pps ∨
    ∃ n ∈ au, naluTypeH264 n = 8 ∧
      (updateTrackParametersFromAUH264 fmt au).pps = some n := by
  unfold updateTrackParametersFromAUH264
  dsimp only
  split
  · exact updateAULoopH264_pps_char au fmt.sps fmt.pps false
  · left; rfl

theorem updateAUH264_sps_unobserved (fmt : FormatH264) (au : AccessUnit)
    (h : ∀ n ∈ au, naluTypeH264 n ≠ 7) :
    (updateTrackParametersFromAUH264 fmt au).sps = fmt.sps := by
  unfold updateTrackParametersFromAUH264
  dsimp only
  split
  · exact updateAULoopH264_sps_unobserved au fmt.sps fmt.pps false h
  · rfl

theorem updateAUH264_pps_unobserved (fmt : FormatH264) (au : AccessUnit)
    (h : ∀ n ∈ au, naluTypeH264 n ≠ 8) :
    (updateTrackParametersFromAUH264 fmt au).pps = fmt.pps := by
  unfold updateTrackParametersFromAUH264
  dsimp only
  split
  · exact updateAULoopH264_pps_unobserved au fmt.sps fmt.pps false h
  · rfl

theorem updateAULoopH265_vps_char (fmt : FormatH265) (au : AccessUnit)
    (vps sps pps : Option NALU) (update : Bool) :
    (updateAULoopH265 fmt au vps sps pps update).1 =
      (match (au.filter
          (fun n => naluTypeH265 n == 32 && !bytesEqualOpt n fmt.vps)).getLast? with
       | some n => some n
       | none => vps) := by
  induction au generalizing vps sps pps update with
  | nil => rfl
  | cons nalu rest ih =>
    unfold updateAULoopH265
    dsimp only
    by_cases h32 : naluTypeH265 nalu = 32
    · by_cases hb : bytesEqualOpt nalu fmt.vps = true
      · have hcond : (naluTypeH265 nalu == 32 && !bytesEqualOpt nalu fmt.vps) = false := by
          simp [h32, hb]
        simp only [h32, beq_self_eq_true, if_true, hb, List.filter_cons, hcond,
          Bool.false_eq_true, if_false]
        exact ih vps sps pps update
      · have hb' : bytesEqualOpt nalu fmt.vps = false := by
          cases hx : bytesEqualOpt nalu fmt.vps
          · rfl
          · exact absurd hx hb
        have hcond : (naluTypeH265 nalu == 32 && !bytesEqualOpt nalu fmt.vps) = true := by
          simp [h32, hb']
        simp only [h32, beq_self_eq_true, if_true, hb', Bool.false_eq_true, if_false,
          List.filter_cons, hcond, if_true]
        rw [ih (some nalu) sps pps true]
        cases hfr : rest.filter
            (fun n => naluTypeH265 n == 32 && !bytesEqualOpt n fmt.vps) with
        | nil => simp
        | cons b l =>
          cases hgl : (b :: l).getLast? with
          | none => exact absurd hgl (by simp)
          | some m => simp [List.getLast?_cons_cons, hgl]
    · have h32x : (naluTypeH265 nalu == 32) = false := by simpa using h32
      have hcond : (naluTypeH265 nalu == 32 && !bytesEqualOpt nalu fmt.vps) = false := by
        simp [h32x]
      simp only [h32x, Bool.false_eq_true, if_false, List.filter_cons, hcond]
      by_cases h33 : naluTypeH265 nalu = 33
      · by_cases hb : bytesEqualOpt nalu fmt.sps = true
        · simp only [h33, beq_self_eq_true, if_true, hb]
          exact ih vps sps pps update
        · have hb' : bytesEqualOpt nalu fmt.sps = false := by
            cases hx : bytesEqualOpt nalu fmt.sps
            · rfl
            · exact absurd hx hb
          simp only [h33, beq_self_eq_true, if_true, hb', Bool.false_eq_true, if_false]
          exact ih vps (some nalu) pps true
      · have h33x : (naluTypeH265 nalu == 33) = false := by simpa using h33
        simp only [h33x, Bool.false_eq_true, if_false]
        by_cases h34 : naluTypeH265 nalu = 34
        · by_cases hb : bytesEqualOpt nalu fmt.pps = true
          · simp only [h34, beq_self_eq_true, if_true, hb]
            exact ih vps sps pps update
          · have hb' : bytesEqualOpt nalu fmt.pps = false := by
              cases hx : bytesEqualOpt nalu fmt.pps
              · rfl
              · exact absurd hx hb
            simp only [h34, beq_self_eq_true, if_true, hb', Bool.false_eq_true,
              if_false]
            exact ih vps sps (some nalu) true
        · have h34x : (naluTypeH265 nalu == 34) = false := by simpa using h34
          simp only [h34x, Bool.false_eq_true, if_false]
          exact ih vps sps pps update

theorem updateAULoopH265_sps_char (fmt : FormatH265) (au : AccessUnit)
    (vps sps pps : Option NALU) (update : Bool) :
    (updateAULoopH265 fmt au vps sps pps update).2.1 =
      (match (au.filter
          (fun n => naluTypeH265 n == 33 && !bytesEqualOpt n fmt.sps)).getLast? with
       | some n => some n
       | none => sps) := by
  induction au generalizing vps sps pps update with
  | nil => rfl
  | cons nalu rest ih =>
    unfold updateAULoopH265
    dsimp only
    by_cases h32 : naluTypeH265 nalu = 32
    · have hcond : (naluTypeH265 nalu == 33 && !bytesEqualOpt nalu fmt.sps) = false := by
        simp [h32]
      by_cases hb : bytesEqualOpt nalu fmt.vps = true
      · simp only [h32, beq_self_eq_true, if_true, hb, List.filter_cons, hcond,
          Bool.false_eq_true, if_false]
        exact ih vps sps pps update
      · have hb' : bytesEqualOpt nalu fmt.vps = false := by
          cases hx : bytesEqualOpt nalu fmt.vps
          · rfl
          · exact absurd hx hb
        simp only [h32, beq_self_eq_true, if_true, hb', Bool.false_eq_true, if_false,
          List.filter_cons, hcond]
        exact ih (some nalu) sps pps true
    · have h32x : (naluTypeH265 nalu == 32) = false := by simpa using h32
      simp only [h32x, Bool.false_eq_true, if_false]
      by_cases h33 : naluTypeH265 nalu = 33
      · by_cases hb : bytesEqualOpt nalu fmt.sps = true
        · have hcond : (naluTypeH265 nalu == 33 && !bytesEqualOpt nalu fmt.sps) = false := by
            simp [h33, hb]
          simp only [h33, beq_self_eq_true, if_true, hb, List.filter_cons, hcond,
            Bool.false_eq_true, if_false]
          exact ih vps sps pps update
        · have hb' : bytesEqualOpt nalu fmt.sps = false := by
            cases hx : bytesEqualOpt nalu fmt.sps
            · rfl
            · exact absurd hx hb
          have hcond : (naluTypeH265 nalu == 33 && !bytesEqualOpt nalu fmt.sps) = true := by
            simp [h33, hb']
          simp only [h33, beq_self_eq_true, if_true, hb', Bool.false_eq_true, if_false,
            List.filter_cons, hcond, if_true]
          rw [ih vps (some nalu) pps true]
          cases hfr : rest.filter
              (fun n => naluTypeH265 n == 33 && !bytesEqualOpt n fmt.sps) with
          | nil => simp
          | cons b l =>
            cases hgl : (b :: l).getLast? with
            | none => exact absurd hgl (by simp)
            | some m => simp [List.getLast?_cons_cons, hgl]
      · have h33x : (naluTypeH265 nalu == 33) = false := by simpa using h33
        have hcond : (naluTypeH265 nalu == 33 && !bytesEqualOpt nalu fmt.sps) = false := by
          simp [h33x]
        simp only [h33x, Bool.false_eq_true, if_false, List.filter_cons, hcond]
        by_cases h34 : naluTypeH265 nalu = 34
        · by_cases hb : bytesEqualOpt nalu fmt.pps = true
          · simp only [h34, beq_self_eq_true, if_true, hb]
            exact ih vps sps pps update
          · have hb' : bytesEqualOpt nalu fmt.pps = false := by
              cases hx : bytesEqualOpt nalu fmt.pps
              · rfl
              · exact absurd hx hb
            simp only [h34, beq_self_eq_true, if_true, hb', Bool.false_eq_true,
              if_false]
            exact ih vps sps (some nalu) true
        · have h34x : (naluTypeH265 nalu == 34) = false := by simpa using h34
          simp only [h34x, Bool.false_eq_true, if_false]
          exact ih vps sps pps update

theorem updateAULoopH265_pps_char (fmt : FormatH265) (au : AccessUnit)
    (vps sps pps : Option NALU) (update : Bool) :
    (updateAULoopH265 fmt au vps sps pps update).2.2.1 =
      (match (au.filter
          (fun n => naluTypeH265 n == 34 && !bytesEqualOpt n fmt.pps)).getLast? with
       | some n => some n
       | none => pps) := by
  induction au generalizing vps sps pps update with
  | nil => rfl
  | cons nalu rest ih =>
    unfold updateAULoopH265
    dsimp only
    by_cases h32 : naluTypeH265 nalu = 32
    · have hcond : (naluTypeH265 nalu == 34 && !bytesEqualOpt nalu fmt.pps) = false := by
        simp [h32]
      by_cases hb : bytesEqualOpt nalu fmt.vps = true
      · simp only [h32, beq_self_eq_true, if_true, hb, List.filter_cons, hcond,
          Bool.false_eq_true, if_false]
        exact ih vps sps pps update
      · have hb' : bytesEqualOpt nalu fmt.vps = false := by
          cases hx : bytesEqualOpt nalu fmt.vps
          · rfl
          · exact absurd hx hb
        simp only [h32, beq_self_eq_true, if_true, hb', Bool.false_eq_true, if_false,
          List.filter_cons, hcond]
        exact ih (some nalu) sps pps true
    · have h32x : (naluTypeH265 nalu == 32) = false := by simpa using h32
      simp only [h32x, Bool.false_eq_true, if_false]
      by_cases h33 : naluTypeH265 nalu = 33
      · have hcond : (naluTypeH265 nalu == 34 && !bytesEqualOpt nalu fmt.pps) = false := by
          simp [h33]
        by_cases hb : bytesEqualOpt nalu fmt.sps = true
        · simp only [h33, beq_self_eq_true, if_true, hb, List.filter_cons, hcond,
            Bool.false_eq_true, if_false]
          exact ih vps sps pps update
        · have hb' : bytesEqualOpt nalu fmt.sps = false := by
            cases hx : bytesEqualOpt nalu fmt.sps
            · rfl
            · exact absurd hx hb
          simp only [h33, beq_self_eq_true, if_true, hb', Bool.false_eq_true, if_false,
            List.filter_cons, hcond]
          exact ih vps (some nalu) pps true
      · have h33x : (naluTypeH265 nalu == 33) = false := by simpa using h33
        simp only [h33x, Bool.false_eq_true, if_false]
        by_cases h34 : naluTypeH265 nalu = 34
        · by_cases hb : bytesEqualOpt nalu fmt.pps = true
          · have hcond : (naluTypeH265 nalu == 34 && !bytesEqualOpt nalu fmt.pps) = false := by
              simp [h34, hb]
            simp only [h34, beq_self_eq_true, if_true, hb, List.filter_cons, hcond,
              Bool.false_eq_true, if_false]
            exact ih vps sps pps update
          · have hb' : bytesEqualOpt nalu fmt.pps = false := by
              cases hx : bytesEqualOpt nalu fmt.pps
              · rfl
              · exact absurd hx hb
            have hcond : (naluTypeH265 nalu == 34 && !bytesEqualOpt nalu fmt.pps) = true := by
              simp [h34, hb']
            simp only [h34, beq_self_eq_true, if_true, hb', Bool.false_eq_true,
              if_false, List.filter_cons, hcond, if_true]
            rw [ih vps sps (some nalu) true]
            cases hfr : rest.filter
                (fun n => naluTypeH265 n == 34 && !bytesEqualOpt n fmt.pps) with
            | nil => simp
            | cons b l =>
              cases hgl : (b :: l).getLast? with
              | none => exact absurd hgl (by simp)
              | some m => simp [List.getLast?_cons_cons, hgl]
        · have h34x : (naluTypeH265 nalu == 34) = false := by simpa using h34
          have hcond : (naluTypeH265 nalu == 34 && !bytesEqualOpt nalu fmt.pps) = false := by
            simp [h34x]
          simp only [h34x, Bool.false_eq_true, if_false, List.filter_cons, hcond]
          exact ih vps sps pps update

/-- The predicate under which one NAL unit sets the `update` flag of the
H.265 `updateTrackParametersFromAU` loop. -/
def h265ParamDiffers (fmt : FormatH265) (n : NALU) : Bool :=
  (naluTypeH265 n == 32 && !bytesEqualOpt n fmt.vps) ||
  (naluTypeH265 n == 33 && !bytesEqualOpt n fmt.sps) ||
  (naluTypeH265 n == 34 && !bytesEqualOpt n fmt.pps)

theorem updateAULoopH265_update_char (fmt : FormatH265) (au : AccessUnit)
    (vps sps pps : Option NALU) (update : Bool) :
    (updateAULoopH265 fmt au vps sps pps update).2.2.2 =
      (update || au.any (h265ParamDiffers fmt)) := by
  induction au generalizing vps sps pps update with
  | nil => simp [updateAULoopH265]
  | cons nalu rest ih =>
    unfold updateAULoopH265
    dsimp only
    by_cases h32 : naluTypeH265 nalu = 32
    · by_cases hb : bytesEqualOpt nalu fmt.vps = true
      · have hd : h265ParamDiffers fmt nalu = false := by
          simp [h265ParamDiffers, h32, hb]
        simp only [h32, beq_self_eq_true, if_true, hb, List.any_cons, hd,
          Bool.false_or]
        exact ih vps sps pps update
      · have hb' : bytesEqualOpt nalu fmt.vps = false := by
          cases hx : bytesEqualOpt nalu fmt.vps
          · rfl
          · exact absurd hx hb
        have hd : h265ParamDiffers fmt nalu = true := by
          simp [h265ParamDiffers, h32, hb']
        simp only [h32, beq_self_eq_true, if_true, hb', Bool.false_eq_true, if_false,
          List.any_cons, hd, Bool.true_or]
        rw [ih (some nalu) sps pps true]
        simp
    · have h32x : (naluTypeH265 nalu == 32) = false := by simpa using h32
      simp only [h32x, Bool.false_eq_true, if_false]
      by_cases h33 : naluTypeH265 nalu = 33
      · by_cases hb : bytesEqualOpt nalu fmt.sps = true
        · have hd : h265ParamDiffers fmt nalu = false := by
            simp [h265ParamDiffers, h32x, h33, hb]
          simp only [h33, beq_self_eq_true, if_true, hb, List.any_cons, hd,
            Bool.false_or]
          exact ih vps sps pps update
        · have hb' : bytesEqualOpt nalu fmt.sps = false := by
            cases hx : bytesEqualOpt nalu fmt.sps
            · rfl
            · exact absurd hx hb
          have hd : h265ParamDiffers fmt nalu = true := by
            simp [h265ParamDiffers, h33, hb']
          simp only [h33, beq_self_eq_true, if_true, hb', Bool.false_eq_true, if_false,
            List.any_cons, hd, Bool.true_or]
          rw [ih vps (some nalu) pps true]
          simp
      · have h33x : (naluTypeH265 nalu == 33) = false := by simpa using h33
        simp only [h33x, Bool.false_eq_true, if_false]
        by_cases h34 : naluTypeH265 nalu = 34
        · by_cases hb : bytesEqualOpt nalu fmt.pps = true
          · have hd : h265ParamDiffers fmt nalu = false := by
              simp [h265ParamDiffers, h32x, h33x, h34, hb]
            simp only [h34, beq_self_eq_true, if_true, hb, List.any_cons, hd,
              Bool.false_or]
            exact ih vps sps pps update
          · have hb' : bytesEqualOpt nalu fmt.pps = false := by
              cases hx : bytesEqualOpt nalu fmt.pps
              · rfl
              · exact absurd hx hb
            have hd : h265ParamDiffers fmt nalu = true := by
              simp [h265ParamDiffers, h34, hb']
            simp only [h34, beq_self_eq_true, if_true, hb', Bool.false_eq_true,
              if_false, List.any_cons, hd, Bool.true_or]
            rw [ih vps sps (some nalu) true]
            simp
        · have h34x : (naluTypeH265 nalu == 34) = false := by simpa using h34
          have hd : h265ParamDiffers fmt nalu = false := by
            simp [h265ParamDiffers, h32x, h33x, h34x]
          simp only [h34x, Bool.false_eq_true, if_false, List.any_cons, hd,
            Bool.false_or]
          exact ih vps sps pps update

theorem updateAUH265_vps_char (fmt : FormatH265) (au : AccessUnit) :
    (updateTrackParametersFromAUH265 fmt au).vps =
      lastObservedDiffering naluTypeH265 32 fmt.vps au := by
  unfold updateTrackParametersFromAUH265 lastObservedDiffering
  dsimp only
  split
  · exact updateAULoopH265_vps_char fmt au fmt.vps fmt.sps fmt.pps false
  · next hupd =>
    have hupd' := updateAULoopH265_update_char fmt au fmt.vps fmt.sps fmt.pps false
    have hany : au.any (h265ParamDiffers fmt) = false := by
      cases hx : au.any (h265ParamDiffers fmt)
      · rfl
      · exact absurd (by rw [hupd', hx]; rfl) hupd
    have hfe : au.filter
        (fun n => naluTypeH265 n == 32 && !bytesEqualOpt n fmt.vps) = [] := by
      rw [List.filter_eq_nil_iff]
      intro n hn
      have hne := (List.any_eq_false).mp hany n hn
      have hnd : h265ParamDiffers fmt n = false := by
        cases hx : h265ParamDiffers fmt n
        · rfl
        · exact absurd hx hne
      simp only [h265ParamDiffers, Bool.or_eq_false_iff] at hnd
      simp [hnd.1.1]
    rw [hfe]
    rfl

theorem updateAUH265_sps_char (fmt : FormatH265) (au : AccessUnit) :
    (updateTrackParametersFromAUH265 fmt au).sps =
      lastObservedDiffering naluTypeH265 33 fmt.sps au := by
  unfold updateTrackParametersFromAUH265 lastObservedDiffering
  dsimp only
  split
  · exact updateAULoopH265_sps_char fmt au fmt.vps fmt.sps fmt.pps false
  · next hupd =>
    have hupd' := updateAULoopH265_update_char fmt au fmt.vps fmt.sps fmt.pps false
    have hany : au.any (h265ParamDiffers fmt) = false := by
      cases hx : au.any (h265ParamDiffers fmt)
      · rfl
      · exact absurd (by rw [hupd', hx]; rfl) hupd
    have hfe : au.filter
        (fun n => naluTypeH265 n == 33 && !bytesEqualOpt n fmt.sps) = [] := by
      rw [List.filter_eq_nil_iff]
      intro n hn
      have hne := (List.any_eq_false).mp hany n hn
      have hnd : h265ParamDiffers fmt n = false := by
        cases hx : h265ParamDiffers fmt n
        · rfl
        · exact absurd hx hne
      simp only [h265ParamDiffers, Bool.or_eq_false_iff] at hnd
      simp [hnd.1.2]
    rw [hfe]
    rfl

theorem updateAUH265_pps_char (fmt : FormatH265) (au : AccessUnit) :
    (updateTrackParametersFromAUH265 fmt au).pps =
      lastObservedDiffering naluTypeH265 34 fmt.pps au := by
  unfold updateTrackParametersFromAUH265 lastObservedDiffering
  dsimp only
  split
  · exact updateAULoopH265_pps_char fmt au fmt.vps fmt.sps fmt.pps false
  · next hupd =>
    have hupd' := updateAULoopH265_update_char fmt au fmt.vps fmt.sps fmt.pps false
    have hany : au.any (h265ParamDiffers fmt) = false := by
      cases hx : au.any (h265ParamDiffers fmt)
      · rfl
      · exact absurd (by rw [hupd', hx]; rfl) hupd
    have hfe : au.filter
        (fun n => naluTypeH265 n == 34 && !bytesEqualOpt n fmt.pps) = [] := by
      rw [List.filter_eq_nil_iff]
      intro n hn
      have hne := (List.any_eq_false).mp hany n hn
      have hnd : h265ParamDiffers fmt n = false := by
        cases hx : h265ParamDiffers fmt n
        · rfl
        · exact absurd hx hne
      simp only [h265ParamDiffers, Bool.or_eq_false_iff] at hnd
      simp [hnd.2]
    rw [hfe]
    rfl

/-! ### Path lemmas -/

theorem conf_sourceSetNotReady (pa : PathState) :
    (sourceSetNotReady pa).conf = pa.conf := rfl

theorem conf_doPublisherRemove (pa : PathState) :
    (doPublisherRemove pa).conf = pa.conf := by
  unfold doPublisherRemove sourceSetNotReady
  split <;> rfl

theorem conf_onDemandPublisherStop (pa : PathState) :
    (onDemandPublisherStop pa).conf = pa.conf := by
  unfold onDemandPublisherStop
  dsimp only
  split
  · exact conf_doPublisherRemove pa
  · rfl

theorem conf_onDemandStaticSourceStop (pa : PathState) :
    (onDemandStaticSourceStop pa).conf = pa.conf := rfl

theorem conf_handleDescribe (pa : PathState) (req : URLReq) :
    (handleDescribe pa req).1.conf = pa.conf := by
  unfold handleDescribe
  split
  · rfl
  · split
    · rfl
    · split_ifs <;> simp [onDemandStaticSourceStart, onDemandPublisherStart]

theorem conf_handlePublisherRemove (pa : PathState) (author : Nat) :
    (handlePublisherRemove pa author).conf = pa.conf := by
  unfold handlePublisherRemove
  split
  · exact conf_doPublisherRemove pa
  · rfl

theorem conf_handlePublisherStop (pa : PathState) (author : Nat) :
    (handlePublisherStop pa author).conf = pa.conf := by
  unfold handlePublisherStop
  split
  · rfl
  · rfl

theorem conf_handleReaderAddPost (pa : PathState) :
    (handleReaderAddPost pa).conf = pa.conf := by
  unfold handleReaderAddPost
  dsimp only
  split_ifs <;> rfl

theorem conf_handleReaderAdd (pa : PathState) :
    (handleReaderAdd pa).conf = pa.conf := by
  unfold handleReaderAdd
  split
  · exact conf_handleReaderAddPost pa
  · split_ifs <;> simp [onDemandStaticSourceStart, onDemandPublisherStart]

theorem shouldClose_false_of_conf (q pa : PathState) (hq : q.conf = pa.conf)
    (hreg : pa.conf.regexp = false) : shouldClose q = false := by
  simp [shouldClose, hq, hreg]

/-! ### Per-call parameter lemmas lifted to events -/

theorem applyParamEventH264_sps_cases (fmt : FormatH264) (e : ParamEventH264) :
    (applyParamEventH264 fmt e).sps = fmt.sps ∨
    ∃ s ∈ observedSPSH264 e, (applyParamEventH264 fmt e).sps = some s := by
  cases e with
  | rtp payload =>
    rcases rtpUpdateH264_sps_char fmt payload with h | ⟨s, hex, h⟩
    · left; exact h
    · right; exact ⟨s, by simp [observedSPSH264, hex], h⟩
  | au accessUnit =>
    rcases updateAUH264_sps_char fmt accessUnit with h | ⟨n, hmem, ht, h⟩
    · left; exact h
    · right
      exact ⟨n, List.mem_filter.mpr ⟨hmem, by simp [ht]⟩, h⟩

theorem applyParamEventH264_pps_cases (fmt : FormatH264) (e : ParamEventH264) :
    (applyParamEventH264 fmt e).pps = fmt.pps ∨
    ∃ p ∈ observedPPSH264 e, (applyParamEventH264 fmt e).pps = some p := by
  cases e with
  | rtp payload =>
    rcases rtpUpdateH264_pps_char fmt payload with h | ⟨p, hex, h⟩
    · left; exact h
    · right; exact ⟨p, by simp [observedPPSH264, hex], h⟩
  | au accessUnit =>
    rcases updateAUH264_pps_char fmt accessUnit with h | ⟨n, hmem, ht, h⟩
    · left; exact h
    · right
      exact ⟨n, List.mem_filter.mpr ⟨hmem, by simp [ht]⟩, h⟩

theorem applyParamEventH265_vps_cases (fmt : FormatH265) (e : ParamEventH265) :
    (applyParamEventH265 fmt e).vps = fmt.vps ∨
    ∃ v ∈ observedVPSH265 e, (applyParamEventH265 fmt e).vps = some v := by
  cases e with
  | rtp payload =>
    rcases rtpUpdateH265_vps_char fmt payload with h | ⟨v, hex, h⟩
    · left; exact h
    · right; exact ⟨v, by simp [observedVPSH265, hex], h⟩
  | au accessUnit =>
    have hc := updateAUH265_vps_char fmt accessUnit
    unfold lastObservedDiffering at hc
    cases hfl : (accessUnit.filter
        (fun n => naluTypeH265 n == 32 && !bytesEqualOpt n fmt.vps)).getLast? with
    | none =>
      left
      show (updateTrackParametersFromAUH265 fmt accessUnit).vps = fmt.vps
      rw [hc, hfl]
    | some n =>
      right
      refine ⟨n, ?_, by
        show (updateTrackParametersFromAUH265 fmt accessUnit).vps = some n
        rw [hc, hfl]⟩
      have hxo : n ∈ (accessUnit.filter
          (fun m => naluTypeH265 m == 32 && !bytesEqualOpt m fmt.vps)).getLast? :=
        Option.mem_def.mpr hfl
      obtain ⟨hne, heq⟩ := List.mem_getLast?_eq_getLast hxo
      have hmem : n ∈ accessUnit.filter
          (fun m => naluTypeH265 m == 32 && !bytesEqualOpt m fmt.vps) :=
        heq ▸ List.getLast_mem hne
      have := List.mem_filter.mp hmem
      exact List.mem_filter.mpr ⟨this.1, by
        have h2 := this.2
        simp only [Bool.and_eq_true] at h2
        simp [h2.1]⟩

theorem applyParamEventH265_sps_cases (fmt : FormatH265) (e : ParamEventH265) :
    (applyParamEventH265 fmt e).sps = fmt.sps ∨
    ∃ s ∈ observedSPSH265 e, (applyParamEventH265 fmt e).sps = some s := by
  cases e with
  | rtp payload =>
    rcases rtpUpdateH265_sps_char fmt payload with h | ⟨s, hex, h⟩
    · left; exact h
    · right; exact ⟨s, by simp [observedSPSH265, hex], h⟩
  | au accessUnit =>
    have hc := updateAUH265_sps_char fmt accessUnit
    unfold lastObservedDiffering at hc
    cases hfl : (accessUnit.filter
        (fun n => naluTypeH265 n == 33 && !bytesEqualOpt n fmt.sps)).getLast? with
    | none =>
      left
      show (updateTrackParametersFromAUH265 fmt accessUnit).sps = fmt.sps
      rw [hc, hfl]
    | some n =>
      right
      refine ⟨n, ?_, by
        show (updateTrackParametersFromAUH265 fmt accessUnit).sps = some n
        rw [hc, hfl]⟩
      have hxo : n ∈ (accessUnit.filter
          (fun m => naluTypeH265 m == 33 && !bytesEqualOpt m fmt.sps)).getLast? :=
        Option.mem_def.mpr hfl
      obtain ⟨hne, heq⟩ := List.mem_getLast?_eq_getLast hxo
      have hmem : n ∈ accessUnit.filter
          (fun m => naluTypeH265 m == 33 && !bytesEqualOpt m fmt.sps) :=
        heq ▸ List.getLast_mem hne
      have := List.mem_filter.mp hmem
      exact List.mem_filter.mpr ⟨this.1, by
        have h2 := this.2
        simp only [Bool.and_eq_true] at h2
        simp [h2.1]⟩

theorem applyParamEventH265_pps_cases (fmt : FormatH265) (e : ParamEventH265) :
    (applyParamEventH265 fmt e).pps = fmt.pps ∨
    ∃ p ∈ observedPPSH265 e, (applyParamEventH265 fmt e).pps = some p := by
  cases e with
  | rtp payload =>
    rcases rtpUpdateH265_pps_char fmt payload with h | ⟨p, hex, h⟩
    · left; exact h
    · right; exact ⟨p, by simp [observedPPSH265, hex], h⟩
  | au accessUnit =>
    have hc := updateAUH265_pps_char fmt accessUnit
    unfold lastObservedDiffering at hc
    cases hfl : (accessUnit.filter
        (fun n => naluTypeH265 n == 34 && !bytesEqualOpt n fmt.pps)).getLast? with
    | none =>
      left
      show (updateTrackParametersFromAUH265 fmt accessUnit).pps = fmt.pps
      rw [hc, hfl]
    | some n =>
      right
      refine ⟨n, ?_, by
        show (updateTrackParametersFromAUH265 fmt accessUnit).pps = some n
        rw [hc, hfl]⟩
      have hxo : n ∈ (accessUnit.filter
          (fun m => naluTypeH265 m == 34 && !bytesEqualOpt m fmt.pps)).getLast? :=
        Option.mem_def.mpr hfl
      obtain ⟨hne, heq⟩ := List.mem_getLast?_eq_getLast hxo
      have hmem : n ∈ accessUnit.filter
          (fun m => naluTypeH265 m == 34 && !bytesEqualOpt m fmt.pps) :=
        heq ▸ List.getLast_mem hne
      have := List.mem_filter.mp hmem
      exact List.mem_filter.mpr ⟨this.1, by
        have h2 := this.2
        simp only [Bool.and_eq_true] at h2
        simp [h2.1]⟩

theorem applyParamEventH264_sps_unobserved (fmt : FormatH264) (e : ParamEventH264)
    (h : observedSPSH264 e = []) : (applyParamEventH264 fmt e).sps = fmt.sps := by
  cases e with
  | rtp payload =>
    rcases rtpUpdateH264_sps_char fmt payload with h' | ⟨s, hex, _⟩
    · exact h'
    · exact absurd h (by simp [observedSPSH264, hex])
  | au accessUnit =>
    refine updateAUH264_sps_unobserved fmt accessUnit fun n hn ht => ?_
    have : n ∈ accessUnit.filter (fun m => naluTypeH264 m == 7) :=
      List.mem_filter.mpr ⟨hn, by simp [ht]⟩
    rw [show accessUnit.filter (fun m => naluTypeH264 m == 7) = [] from h] at this
    exact absurd this (List.not_mem_nil n)

theorem applyParamEventH264_pps_unobserved (fmt : FormatH264) (e : ParamEventH264)
    (h : observedPPSH264 e = []) : (applyParamEventH264 fmt e).pps = fmt.pps := by
  cases e with
  | rtp payload =>
    rcases rtpUpdateH264_pps_char fmt payload with h' | ⟨p, hex, _⟩
    · exact h'
    · exact absurd h (by simp [observedPPSH264, hex])
  | au accessUnit =>
    refine updateAUH264_pps_unobserved fmt accessUnit fun n hn ht => ?_
    have : n ∈ accessUnit.filter (fun m => naluTypeH264 m == 8) :=
      List.mem_filter.mpr ⟨hn, by simp [ht]⟩
    rw [show accessUnit.filter (fun m => naluTypeH264 m == 8) = [] from h] at this
    exact absurd this (List.not_mem_nil n)

theorem applyParamEventH265_vps_unobserved (fmt : FormatH265) (e : ParamEventH265)
    (h : observedVPSH265 e = []) : (applyParamEventH265 fmt e).vps = fmt.vps := by
  cases e with
  | rtp payload =>
    rcases rtpUpdateH265_vps_char fmt payload with h' | ⟨v, hex, _⟩
    · exact h'
    · exact absurd h (by simp [observedVPSH265, hex])
  | au accessUnit =>
    show (updateTrackParametersFromAUH265 fmt accessUnit).vps = fmt.vps
    rw [updateAUH265_vps_char]
    unfold lastObservedDiffering
    have hfe : accessUnit.filter
        (fun n => naluTypeH265 n == 32 && !bytesEqualOpt n fmt.vps) = [] := by
      rw [List.filter_eq_nil_iff]
      intro n hn
      intro hcontra
      simp only [Bool.and_eq_true] at hcontra
      have : n ∈ accessUnit.filter (fun m => naluTypeH265 m == 32) :=
        List.mem_filter.mpr ⟨hn, hcontra.1⟩
      rw [show accessUnit.filter (fun m => naluTypeH265 m == 32) = [] from h] at this
      exact absurd this (List.not_mem_nil n)
    rw [hfe]
    rfl

theorem applyParamEventH265_sps_unobserved (fmt : FormatH265) (e : ParamEventH265)
    (h : observedSPSH265 e = []) : (applyParamEventH265 fmt e).sps = fmt.sps := by
  cases e with
  | rtp payload =>
    rcases rtpUpdateH265_sps_char fmt payload with h' | ⟨s, hex, _⟩
    · exact h'
    · exact absurd h (by simp [observedSPSH265, hex])
  | au accessUnit =>
    show (updateTrackParametersFromAUH265 fmt accessUnit).sps = fmt.sps
    rw [updateAUH265_sps_char]
    unfold lastObservedDiffering
    have hfe : accessUnit.filter
        (fun n => naluTypeH265 n == 33 && !bytesEqualOpt n fmt.sps) = [] := by
      rw [List.filter_eq_nil_iff]
      intro n hn
      intro hcontra
      simp only [Bool.and_eq_true] at hcontra
      have : n ∈ accessUnit.filter (fun m => naluTypeH265 m == 33) :=
        List.mem_filter.mpr ⟨hn, hcontra.1⟩
      rw [show accessUnit.filter (fun m => naluTypeH265 m == 33) = [] from h] at this
      exact absurd this (List.not_mem_nil n)
    rw [hfe]
    rfl

theorem applyParamEventH265_pps_unobserved (fmt : FormatH265) (e : ParamEventH265)
    (h : observedPPSH265 e = []) : (applyParamEventH265 fmt e).pps = fmt.pps := by
  cases e with
  | rtp payload =>
    rcases rtpUpdateH265_pps_char fmt payload with h' | ⟨p, hex, _⟩
    · exact h'
    · exact absurd h (by simp [observedPPSH265, hex])
  | au accessUnit =>
    show (updateTrackParametersFromAUH265 fmt accessUnit).pps = fmt.pps
    rw [updateAUH265_pps_char]
    unfold lastObservedDiffering
    have hfe : accessUnit.filter
        (fun n => naluTypeH265 n == 34 && !bytesEqualOpt n fmt.pps) = [] := by
      rw [List.filter_eq_nil_iff]
      intro n hn
      intro hcontra
      simp only [Bool.and_eq_true] at hcontra
      have : n ∈ accessUnit.filter (fun m => naluTypeH265 m == 34) :=
        List.mem_filter.mpr ⟨hn, hcontra.1⟩
      rw [show accessUnit.filter (fun m => naluTypeH265 m == 34) = [] from h] at this
      exact absurd this (List.not_mem_nil n)
    rw [hfe]
    rfl

theorem foldl_sps_isSome_H264 (evs : List ParamEventH264) :
    ∀ fmt : FormatH264, fmt.sps.isSome = true →
      (evs.foldl applyParamEventH264 fmt).sps.isSome = true := by
  induction evs with
  | nil => intro fmt h; exact h
  | cons e rest ih =>
    intro fmt h
    refine ih _ ?_
    rcases applyParamEventH264_sps_cases fmt e with h' | ⟨s, _, h'⟩
    · rw [h']; exact h
    · rw [h']; rfl

theorem foldl_pps_isSome_H264 (evs : List ParamEventH264) :
    ∀ fmt : FormatH264, fmt.pps.isSome = true →
      (evs.foldl applyParamEventH264 fmt).pps.isSome = true := by
  induction evs with
  | nil => intro fmt h; exact h
  | cons e rest ih =>
    intro fmt h
    refine ih _ ?_
    rcases applyParamEventH264_pps_cases fmt e with h' | ⟨p, _, h'⟩
    · rw [h']; exact h
    · rw [h']; rfl

theorem foldl_vps_isSome_H265 (evs : List ParamEventH265) :
    ∀ fmt : FormatH265, fmt.vps.isSome = true →
      (evs.foldl applyParamEventH265 fmt).vps.isSome = true := by
  induction evs with
  | nil => intro fmt h; exact h
  | cons e rest ih =>
    intro fmt h
    refine ih _ ?_
    rcases applyParamEventH265_vps_cases fmt e with h' | ⟨v, _, h'⟩
    · rw [h']; exact h
    · rw [h']; rfl

theorem foldl_sps_isSome_H265 (evs : List ParamEventH265) :
    ∀ fmt : FormatH265, fmt.sps.isSome = true →
      (evs.foldl applyParamEventH265 fmt).sps.isSome = true := by
  induction evs with
  | nil => intro fmt h; exact h
  | cons e rest ih =>
    intro fmt h
    refine ih _ ?_
    rcases applyParamEventH265_sps_cases fmt e with h' | ⟨v, _, h'⟩
    · rw [h']; exact h
    · rw [h']; rfl

theorem foldl_pps_isSome_H265 (evs : List ParamEventH265) :
    ∀ fmt : FormatH265, fmt.pps.isSome = true →
      (evs.foldl applyParamEventH265 fmt).pps.isSome = true := by
  induction evs with
  | nil => intro fmt h; exact h
  | cons e rest ih =>
    intro fmt h
    refine ih _ ?_
    rcases applyParamEventH265_pps_cases fmt e with h' | ⟨v, _, h'⟩
    · rw [h']; exact h
    · rw [h']; rfl

/-! ### Claim theorems -/

/-- C1: For every H.264 access unit passed through `remuxAccessUnit`, all
SPS, PPS and AUD NAL units are removed; if a remaining NAL unit is an IDR
slice and the Format stores both SPS and PPS, the stored SPS then PPS are
prepended; if no NAL units remain the result is empty — and an empty
remux result makes `Process` emit no RTP packets.  The identical rule
holds for H.265 with VPS/SPS/PPS/AUD and key-frame types
{IDR_W_RADL, IDR_N_LP, CRA_NUT}. -/
theorem remuxAccessUnit_canonical :
    (∀ (fmt : FormatH264) (au : AccessUnit),
      remuxAccessUnitH264 fmt au = remuxSpecH264 fmt au) ∧
    (∀ (fmt : FormatH265) (au : AccessUnit),
      remuxAccessUnitH265 fmt au = remuxSpecH265 fmt au) ∧
    (∀ (decode : RtpPacket → DecodeResult)
        (encode : AccessUnit → Option (List RtpPacket))
        (setTs : List RtpPacket → List RtpPacket)
        (t : ProcH264) (u : MediaUnit) (hnr : Bool),
      u.rtpPackets = none →
      remuxAccessUnitH264 (updateTrackParametersFromAUH264 t.format u.au) u.au = [] →
      (processH264 decode encode setTs t u hnr).2.1.rtpPackets = none ∧
      (processH264 decode encode setTs t u hnr).2.2 = none) ∧
    (∀ (decode : RtpPacket → DecodeResult)
        (encode : AccessUnit → Option (List RtpPacket))
        (setTs : List RtpPacket → List RtpPacket)
        (t : ProcH265) (u : MediaUnit) (hnr : Bool),
      u.rtpPackets = none →
      remuxAccessUnitH265 (updateTrackParametersFromAUH265 t.format u.au) u.au = [] →
      (processH265 decode encode setTs t u hnr).2.1.rtpPackets = none ∧
      (processH265 decode encode setTs t u hnr).2.2 = none) := by
  refine ⟨remuxAccessUnitH264_eq_spec, remuxAccessUnitH265_eq_spec, ?_, ?_⟩
  · intro decode encode setTs t u hnr h hrem
    obtain ⟨rp, au'⟩ := u
    simp only at h
    subst h
    simp [processH264, processEncodeTail, hrem]
  · intro decode encode setTs t u hnr h hrem
    obtain ⟨rp, au'⟩ := u
    simp only at h
    subst h
    simp [processH265, processEncodeTail, hrem]

/-- Witness for C1 at a concrete input: an access unit made only of an
SPS NAL unit remuxes to nothing and `Process` clears the RTP packets. -/
theorem remuxAccessUnit_canonical_witness :
    (processH264 (fun _ => DecodeResult.errOther) (fun _ => none) id
        ⟨1472, ⟨none, none⟩, none, false⟩ ⟨none, [[7]]⟩ false).2.1.rtpPackets
      = none ∧
    (processH265 (fun _ => DecodeResult.errOther) (fun _ => none) id
        ⟨1472, ⟨none, none, none⟩, none, false⟩ ⟨none, [[64]]⟩ false).2.1.rtpPackets
      = none :=
  ⟨(remuxAccessUnit_canonical.2.2.1 (fun _ => DecodeResult.errOther) (fun _ => none)
      id ⟨1472, ⟨none, none⟩, none, false⟩ ⟨none, [[7]]⟩ false rfl (by decide)).1,
   (remuxAccessUnit_canonical.2.2.2 (fun _ => DecodeResult.errOther) (fun _ => none)
      id ⟨1472, ⟨none, none, none⟩, none, false⟩ ⟨none, [[64]]⟩ false rfl
      (by decide)).1⟩

/-- C4 (amended): the H.265 `updateTrackParametersFromAU` compares every
candidate NAL unit to the currently-stored Format parameter of its type
(never to a value observed earlier in the same access unit), and it
records the LAST copy in the access unit that differs from the stored
parameter (each differing copy overwrites the previous one); copies equal
to the stored parameter are skipped, and with no differing copy the
stored value is kept. -/
theorem updateAUH265_records_last_differing (fmt : FormatH265) (au : AccessUnit) :
    (updateTrackParametersFromAUH265 fmt au).vps =
      lastObservedDiffering naluTypeH265 32 fmt.vps au ∧
    (updateTrackParametersFromAUH265 fmt au).sps =
      lastObservedDiffering naluTypeH265 33 fmt.sps au ∧
    (updateTrackParametersFromAUH265 fmt au).pps =
      lastObservedDiffering naluTypeH265 34 fmt.pps au :=
  ⟨updateAUH265_vps_char fmt au, updateAUH265_sps_char fmt au,
   updateAUH265_pps_char fmt au⟩

/-- Counterexample to C4 as stated: an access unit carrying two distinct
VPS copies (both differing from the empty stored parameters) records the
SECOND copy, not the first. -/
theorem updateAUH265_first_copy_counterexample :
    naluTypeH265 [64, 1] = 32 ∧ naluTypeH265 [64, 2] = 32 ∧
    updateTrackParametersFromAUH265 ⟨none, none, none⟩ [[64, 1], [64, 2]] =
      ⟨some [64, 2], none, none⟩ ∧
    ([64, 2] : NALU) ≠ [64, 1] := by
  refine ⟨by decide, by decide, ?_, by decide⟩
  decide

/-- C7: the describe resolution order of `handleDescribe` is exactly
(1) redirect source, (2) ready stream, (3) on-demand park (starting the
source when Initial), (4) fallback (rewritten against the request URL
when it starts with a slash), (5) "no one is publishing" error. -/
theorem handleDescribe_resolution_order (pa : PathState) (req : URLReq) :
    handleDescribe pa req = describeSpec pa req := by
  unfold handleDescribe describeSpec
  by_cases hr : (pa.source == some SourceVal.redirect) = true
  · simp [hr]
  · have hr' : (pa.source == some SourceVal.redirect) = false := by
      cases hx : pa.source == some SourceVal.redirect
      · rfl
      · exact absurd hx hr
    cases hst : pa.stream with
    | some sid => simp [hr', hst]
    | none =>
      by_cases h1 : pa.conf.hasOnDemandStaticSource = true
      · simp [hr', hst, h1]
      · have h1' : pa.conf.hasOnDemandStaticSource = false := by
          cases hx : pa.conf.hasOnDemandStaticSource
          · rfl
          · exact absurd hx h1
        by_cases h2 : pa.conf.hasOnDemandPublisher = true
        · simp [hr', hst, h1', h2]
        · have h2' : pa.conf.hasOnDemandPublisher = false := by
            cases hx : pa.conf.hasOnDemandPublisher
            · rfl
            · exact absurd hx h2
          simp [hr', hst, h1', h2']

/-- C10: `remuxAccessUnit` is idempotent on access units of non-empty NAL
units when the stored parameters' first bytes encode their own
parameter-set NAL types. -/
theorem remuxAccessUnit_idempotent :
    (∀ (fmt : FormatH264) (au : AccessUnit),
      (∀ n ∈ au, n ≠ ([] : NALU)) →
      (∀ s, fmt.sps = some s → naluTypeH264 s = 7) →
      (∀ p, fmt.pps = some p → naluTypeH264 p = 8) →
      remuxAccessUnitH264 fmt (remuxAccessUnitH264 fmt au) =
        remuxAccessUnitH264 fmt au) ∧
    (∀ (fmt : FormatH265) (au : AccessUnit),
      (∀ n ∈ au, n ≠ ([] : NALU)) →
      (∀ v, fmt.vps = some v → naluTypeH265 v = 32) →
      (∀ s, fmt.sps = some s → naluTypeH265 s = 33) →
      (∀ p, fmt.pps = some p → naluTypeH265 p = 34) →
      remuxAccessUnitH265 fmt (remuxAccessUnitH265 fmt au) =
        remuxAccessUnitH265 fmt au) := by
  constructor
  · intro fmt au _ hs hp
    simp only [remuxAccessUnitH264_eq_spec]
    exact remuxSpecH264_idem fmt au hs hp
  · intro fmt au _ hv hs hp
    simp only [remuxAccessUnitH265_eq_spec]
    exact remuxSpecH265_idem fmt au hv hs hp

/-- Witness for C10 at concrete inputs: a lone IDR / CRA access unit with
well-typed stored parameters. -/
theorem remuxAccessUnit_idempotent_witness :
    remuxAccessUnitH264 ⟨some [103], some [104]⟩
        (remuxAccessUnitH264 ⟨some [103], some [104]⟩ [[101]]) =
      remuxAccessUnitH264 ⟨some [103], some [104]⟩ [[101]] ∧
    remuxAccessUnitH265 ⟨some [64], some [66], some [68]⟩
        (remuxAccessUnitH265 ⟨some [64], some [66], some [68]⟩ [[38]]) =
      remuxAccessUnitH265 ⟨some [64], some [66], some [68]⟩ [[38]] :=
  ⟨remuxAccessUnit_idempotent.1 ⟨some [103], some [104]⟩ [[101]]
      (by decide)
      (by intro s hs; injection hs with h; exact h ▸ (by decide))
      (by intro p hp; injection hp with h; exact h ▸ (by decide)),
   remuxAccessUnit_idempotent.2 ⟨some [64], some [66], some [68]⟩ [[38]]
      (by decide)
      (by intro v hv; injection hv with h; exact h ▸ (by decide))
      (by intro s hs; injection hs with h; exact h ▸ (by decide))
      (by intro p hp; injection hp with h; exact h ▸ (by decide))⟩

/-- C3 (code-bug evidence): on an H.265 aggregation packet the extractor
recomputes the NAL type from the payload's first byte (always 48, the AP
type), so a contained VPS is never extracted; the H.264 extractor
classifies by each NAL unit's own first byte and does extract the
contained SPS. -/
theorem rtpH265Extract_aggregation_misclassifies :
    rtpH265ExtractVPSSPSPPS [96, 0, 0, 3, 64, 10, 11] = (none, none, none) ∧
    naluTypeH265 [64, 10, 11] = 32 ∧
    rtpH264ExtractSPSPPS [24, 0, 3, 103, 1, 2] = (some [103, 1, 2], none) ∧
    naluTypeH264 [103, 1, 2] = 7 := by
  refine ⟨?_, by decide, ?_, by decide⟩
  · simp [rtpH265ExtractVPSSPSPPS, rtpH265ExtractLoop]
  · simp [rtpH264ExtractSPSPPS, rtpH264ExtractLoop, naluTypeH264]

/-- C8 (amended): on a path whose configured source is "publisher", an
add-publisher request replaces a bound source when override is allowed
(closing it: the stream becomes not ready and readers are evicted when it
was ready), fails leaving everything unchanged when
`DisablePublisherOverride` is set, and binds directly when no source is
bound.  The path's source is a single field, so at most one publisher is
ever bound. -/
theorem publisherOverride (pa : PathState) (author : Nat)
    (hconf : pa.conf.source = "publisher") :
    (pa.source.isSome = true → pa.conf.disablePublisherOverride = false →
      (handlePublisherAdd pa author).1.source = some (.publisher author) ∧
      (handlePublisherAdd pa author).2 = .ok ∧
      (handlePublisherAdd pa author).1.stream = none ∧
      (pa.stream.isSome = true → (handlePublisherAdd pa author).1.readers = 0)) ∧
    (pa.source.isSome = true → pa.conf.disablePublisherOverride = true →
      (handlePublisherAdd pa author).1 = pa ∧
      (handlePublisherAdd pa author).2 = .errAlreadyPublishing) ∧
    (pa.source = none →
      (handlePublisherAdd pa author).1 =
        { pa with source := some (.publisher author) } ∧
      (handlePublisherAdd pa author).2 = .ok) := by
  have hne : (pa.conf.source != "publisher") = false := by
    simp [hconf]
  refine ⟨?_, ?_, ?_⟩
  · intro hsome hov
    cases hsrc : pa.source with
    | none => rw [hsrc] at hsome; exact absurd hsome (by simp)
    | some sv =>
      have hmain : handlePublisherAdd pa author =
          ({ doPublisherRemove pa with source := some (.publisher author) }, .ok) := by
        unfold handlePublisherAdd
        rw [hne, hsrc, hov]
        simp only [Bool.false_eq_true, if_false]
      rw [hmain]
      refine ⟨rfl, rfl, ?_, ?_⟩
      · show (doPublisherRemove pa).stream = none
        unfold doPublisherRemove sourceSetNotReady
        split
        · rfl
        · next hx => exact Option.not_isSome_iff_eq_none.mp (by simpa using hx)
      · intro hst
        show (doPublisherRemove pa).readers = 0
        unfold doPublisherRemove sourceSetNotReady
        split
        · rfl
        · next hx => exact absurd hst hx
  · intro hsome hov
    cases hsrc : pa.source with
    | none => rw [hsrc] at hsome; exact absurd hsome (by simp)
    | some sv =>
      simp [handlePublisherAdd, hne, hsrc, hov]
  · intro hnone
    simp [handlePublisherAdd, hne, hnone]

/-- Witness for C8 at a concrete state: an existing publisher 1 with a
ready stream and one reader is overridden by publisher 7. -/
theorem publisherOverride_witness :
    (handlePublisherAdd
        ⟨⟨false, "publisher", "", "", false, false, false⟩,
         some (.publisher 1), some 5, 3, 0, 0, .initial, .initial⟩ 7).1.source =
      some (.publisher 7) ∧
    (handlePublisherAdd
        ⟨⟨false, "publisher", "", "", false, false, false⟩,
         some (.publisher 1), some 5, 3, 0, 0, .initial, .initial⟩ 7).1.readers = 0 :=
  ⟨((publisherOverride
      ⟨⟨false, "publisher", "", "", false, false, false⟩,
       some (.publisher 1), some 5, 3, 0, 0, .initial, .initial⟩ 7 rfl).1
      rfl rfl).1,
   (((publisherOverride
      ⟨⟨false, "publisher", "", "", false, false, false⟩,
       some (.publisher 1), some 5, 3, 0, 0, .initial, .initial⟩ 7 rfl).1
      rfl rfl).2.2.2) rfl⟩

/-- Counterexample to C8 as stated: with a bound (redirect) source and
override allowed, the add-publisher request still fails because the
configured source is not "publisher", and the bound source is kept. -/
theorem publisherAdd_nonpublisher_counterexample :
    handlePublisherAdd
        ⟨⟨false, "redirect", "", "", false, false, false⟩,
         some .redirect, none, 0, 0, 0, .initial, .initial⟩ 7 =
      (⟨⟨false, "redirect", "", "", false, false, false⟩,
        some .redirect, none, 0, 0, 0, .initial, .initial⟩,
       .errSourceNotPublisher) ∧
    (⟨⟨false, "redirect", "", "", false, false, false⟩,
      some .redirect, none, 0, 0, 0, .initial, .initial⟩ : PathState).source.isSome
      = true ∧
    (⟨⟨false, "redirect", "", "", false, false, false⟩,
      some .redirect, none, 0, 0, 0, .initial, .initial⟩
        : PathState).conf.disablePublisherOverride = false := by
  refine ⟨?_, rfl, rfl⟩
  decide

/-- Counterexample to C9 as stated: a regex path with no source, no
readers and no held requests handles an API paths-get event; afterwards
the destroy condition holds, yet the loop does not exit. -/
theorem pathStep_apiPathsGet_counterexample :
    shouldClose (pathStep
        ⟨⟨true, "publisher", "", "", false, false, false⟩,
         none, none, 0, 0, 0, .initial, .initial⟩ .apiPathsGet).1 = true ∧
    (pathStep
        ⟨⟨true, "publisher", "", "", false, false, false⟩,
         none, none, 0, 0, 0, .initial, .initial⟩ .apiPathsGet).2 = none := by
  decide

theorem ite_shouldClose_ne (X pa : PathState) (hconf : X.conf = pa.conf)
    (hreg : pa.conf.regexp = false) :
    (if shouldClose X = true then some PathExit.notInUse else none) ≠
      some PathExit.notInUse := by
  rw [shouldClose_false_of_conf X pa hconf hreg]
  simp

/-- C9 (amended): the event loop exits with "not in use" whenever the
destroy condition holds after one of the destruction-checked events
(the four on-demand timers, static-source-not-ready, describe,
publisher-remove, publisher-stop, reader-add); after the remaining events
(reload-conf, static-source-ready, publisher-add, publisher-start,
reader-remove, API get) the loop continues even if the condition holds;
and a path whose config has no regexp never exits through this condition. -/
theorem pathDestroy_checked_events (pa : PathState) (e : PathEvent) :
    (destroyChecked e = true → shouldClose (pathStep pa e).1 = true →
      (pathStep pa e).2 = some .notInUse) ∧
    (pa.conf.regexp = false → (pathStep pa e).2 ≠ some .notInUse) := by
  cases e with
  | onDemandStaticSourceReadyTimerFired =>
    refine ⟨fun _ hsc => ?_, fun hreg => ?_⟩
    · simp only [pathStep, exitIfShouldClose] at hsc ⊢
      simp [hsc]
    · simp only [pathStep, exitIfShouldClose]
      exact ite_shouldClose_ne _ pa rfl hreg
  | onDemandStaticSourceCloseTimerFired =>
    refine ⟨fun _ hsc => ?_, fun hreg => ?_⟩
    · simp only [pathStep, exitIfShouldClose] at hsc ⊢
      simp [hsc]
    · simp only [pathStep, exitIfShouldClose]
      exact ite_shouldClose_ne _ pa rfl hreg
  | onDemandPublisherReadyTimerFired =>
    refine ⟨fun _ hsc => ?_, fun hreg => ?_⟩
    · simp only [pathStep, exitIfShouldClose] at hsc ⊢
      simp [hsc]
    · simp only [pathStep, exitIfShouldClose]
      exact ite_shouldClose_ne _ pa (conf_onDemandPublisherStop _) hreg
  | onDemandPublisherCloseTimerFired =>
    refine ⟨fun _ hsc => ?_, fun hreg => ?_⟩
    · simp only [pathStep, exitIfShouldClose] at hsc ⊢
      simp [hsc]
    · simp only [pathStep, exitIfShouldClose]
      exact ite_shouldClose_ne _ pa (conf_onDemandPublisherStop _) hreg
  | reloadConf newConf =>
    exact ⟨fun hchk => absurd hchk (by simp [destroyChecked]),
      fun _ => by simp [pathStep]⟩
  | sourceStaticSetReady ok streamId =>
    exact ⟨fun hchk => absurd hchk (by simp [destroyChecked]),
      fun _ => by simp [pathStep]⟩
  | sourceStaticSetNotReady =>
    refine ⟨fun _ hsc => ?_, fun hreg => ?_⟩
    · simp only [pathStep, exitIfShouldClose] at hsc ⊢
      rw [if_pos hsc]
    · simp only [pathStep, exitIfShouldClose]
      exact ite_shouldClose_ne _ pa (by split <;> rfl) hreg
  | describe req =>
    refine ⟨fun _ hsc => ?_, fun hreg => ?_⟩
    · simp only [pathStep, exitIfShouldClose] at hsc ⊢
      simp [hsc]
    · simp only [pathStep, exitIfShouldClose]
      exact ite_shouldClose_ne _ pa (conf_handleDescribe pa req) hreg
  | publisherRemove author =>
    refine ⟨fun _ hsc => ?_, fun hreg => ?_⟩
    · simp only [pathStep, exitIfShouldClose] at hsc ⊢
      simp [hsc]
    · simp only [pathStep, exitIfShouldClose]
      exact ite_shouldClose_ne _ pa (conf_handlePublisherRemove pa author) hreg
  | publisherAdd author =>
    exact ⟨fun hchk => absurd hchk (by simp [destroyChecked]),
      fun _ => by simp [pathStep]⟩
  | publisherStart author ok streamId =>
    exact ⟨fun hchk => absurd hchk (by simp [destroyChecked]),
      fun _ => by simp [pathStep]⟩
  | publisherStop author =>
    refine ⟨fun _ hsc => ?_, fun hreg => ?_⟩
    · simp only [pathStep, exitIfShouldClose] at hsc ⊢
      simp [hsc]
    · simp only [pathStep, exitIfShouldClose]
      exact ite_shouldClose_ne _ pa (conf_handlePublisherStop pa author) hreg
  | readerAdd =>
    refine ⟨fun _ hsc => ?_, fun hreg => ?_⟩
    · simp only [pathStep, exitIfShouldClose] at hsc ⊢
      simp [hsc]
    · simp only [pathStep, exitIfShouldClose]
      exact ite_shouldClose_ne _ pa (conf_handleReaderAdd pa) hreg
  | readerRemove =>
    exact ⟨fun hchk => absurd hchk (by simp [destroyChecked]),
      fun _ => by simp [pathStep]⟩
  | apiPathsGet =>
    exact ⟨fun hchk => absurd hchk (by simp [destroyChecked]),
      fun _ => by simp [pathStep]⟩
  | ctxDone =>
    exact ⟨fun hchk => absurd hchk (by simp [destroyChecked]),
      fun _ => by simp [pathStep]⟩

/-- Witness for C9 at a concrete state: a publisher-stop event on a regex
path whose publisher never got ready leads to destruction. -/
theorem pathDestroy_checked_events_witness :
    (pathStep
        ⟨⟨true, "publisher", "", "", false, false, false⟩,
         some (.publisher 1), none, 0, 0, 0, .initial, .initial⟩
        (.publisherRemove 1)).2 = some .notInUse ∧
    (pathStep
        ⟨⟨false, "publisher", "", "", false, false, false⟩,
         none, none, 0, 0, 0, .initial, .initial⟩ .readerAdd).2 ≠
      some .notInUse :=
  ⟨(pathDestroy_checked_events
      ⟨⟨true, "publisher", "", "", false, false, false⟩,
       some (.publisher 1), none, 0, 0, 0, .initial, .initial⟩
      (.publisherRemove 1)).1 (by decide) (by decide),
   (pathDestroy_checked_events
      ⟨⟨false, "publisher", "", "", false, false, false⟩,
       none, none, 0, 0, 0, .initial, .initial⟩ .readerAdd).2 rfl⟩

/-- C2: parameter-set monotonicity — over any sequence of
`updateTrackParametersFromRTPPacket` / `updateTrackParametersFromAU`
calls, a non-nil SPS/PPS (H.264) or VPS/SPS/PPS (H.265) never becomes nil
again; a stored parameter changes only to an observed parameter of the
same kind that differs from the stored value; and a call observing no
parameter of some kind keeps that parameter unchanged. -/
theorem parameterSets_monotone :
    (∀ (evs : List ParamEventH264) (fmt : FormatH264),
      (fmt.sps.isSome = true →
        (evs.foldl applyParamEventH264 fmt).sps.isSome = true) ∧
      (fmt.pps.isSome = true →
        (evs.foldl applyParamEventH264 fmt).pps.isSome = true)) ∧
    (∀ (evs : List ParamEventH265) (fmt : FormatH265),
      (fmt.vps.isSome = true →
        (evs.foldl applyParamEventH265 fmt).vps.isSome = true) ∧
      (fmt.sps.isSome = true →
        (evs.foldl applyParamEventH265 fmt).sps.isSome = true) ∧
      (fmt.pps.isSome = true →
        (evs.foldl applyParamEventH265 fmt).pps.isSome = true)) ∧
    (∀ (fmt : FormatH264) (e : ParamEventH264),
      ((applyParamEventH264 fmt e).sps ≠ fmt.sps →
        ∃ s ∈ observedSPSH264 e,
          (applyParamEventH264 fmt e).sps = some s ∧ some s ≠ fmt.sps) ∧
      ((applyParamEventH264 fmt e).pps ≠ fmt.pps →
        ∃ p ∈ observedPPSH264 e,
          (applyParamEventH264 fmt e).pps = some p ∧ some p ≠ fmt.pps) ∧
      (observedSPSH264 e = [] → (applyParamEventH264 fmt e).sps = fmt.sps) ∧
      (observedPPSH264 e = [] → (applyParamEventH264 fmt e).pps = fmt.pps)) ∧
    (∀ (fmt : FormatH265) (e : ParamEventH265),
      ((applyParamEventH265 fmt e).vps ≠ fmt.vps →
        ∃ v ∈ observedVPSH265 e,
          (applyParamEventH265 fmt e).vps = some v ∧ some v ≠ fmt.vps) ∧
      ((applyParamEventH265 fmt e).sps ≠ fmt.sps →
        ∃ s ∈ observedSPSH265 e,
          (applyParamEventH265 fmt e).sps = some s ∧ some s ≠ fmt.sps) ∧
      ((applyParamEventH265 fmt e).pps ≠ fmt.pps →
        ∃ p ∈ observedPPSH265 e,
          (applyParamEventH265 fmt e).pps = some p ∧ some p ≠ fmt.pps) ∧
      (observedVPSH265 e = [] → (applyParamEventH265 fmt e).vps = fmt.vps) ∧
      (observedSPSH265 e = [] → (applyParamEventH265 fmt e).sps = fmt.sps) ∧
      (observedPPSH265 e = [] → (applyParamEventH265 fmt e).pps = fmt.pps)) := by
  refine ⟨?_, ?_, ?_, ?_⟩
  · intro evs fmt
    exact ⟨foldl_sps_isSome_H264 evs fmt, foldl_pps_isSome_H264 evs fmt⟩
  · intro evs fmt
    exact ⟨foldl_vps_isSome_H265 evs fmt, foldl_sps_isSome_H265 evs fmt,
      foldl_pps_isSome_H265 evs fmt⟩
  · intro fmt e
    refine ⟨?_, ?_, applyParamEventH264_sps_unobserved fmt e,
      applyParamEventH264_pps_unobserved fmt e⟩
    · intro hch
      rcases applyParamEventH264_sps_cases fmt e with h | ⟨s, hm, h⟩
      · exact absurd h hch
      · exact ⟨s, hm, h, h ▸ hch⟩
    · intro hch
      rcases applyParamEventH264_pps_cases fmt e with h | ⟨p, hm, h⟩
      · exact absurd h hch
      · exact ⟨p, hm, h, h ▸ hch⟩
  · intro fmt e
    refine ⟨?_, ?_, ?_, applyParamEventH265_vps_unobserved fmt e,
      applyParamEventH265_sps_unobserved fmt e,
      applyParamEventH265_pps_unobserved fmt e⟩
    · intro hch
      rcases applyParamEventH265_vps_cases fmt e with h | ⟨v, hm, h⟩
      · exact absurd h hch
      · exact ⟨v, hm, h, h ▸ hch⟩
    · intro hch
      rcases applyParamEventH265_sps_cases fmt e with h | ⟨s, hm, h⟩
      · exact absurd h hch
      · exact ⟨s, hm, h, h ▸ hch⟩
    · intro hch
      rcases applyParamEventH265_pps_cases fmt e with h | ⟨p, hm, h⟩
      · exact absurd h hch
      · exact ⟨p, hm, h, h ▸ hch⟩

/-- Witness for C2 at concrete inputs: an SPS stays stored across a later
access unit; a freshly observed SPS is recorded as a differing observed
value; and a payload carrying no parameters changes nothing. -/
theorem parameterSets_monotone_witness :
    (([ParamEventH264.au [[101]]].foldl applyParamEventH264
        ⟨some [103], some [104]⟩).sps.isSome = true) ∧
    ((applyParamEventH264 ⟨none, none⟩ (.au [[103]])).sps ≠ none ∧
      ∃ s ∈ observedSPSH264 (.au [[103]]),
        (applyParamEventH264 ⟨none, none⟩ (.au [[103]])).sps = some s ∧
          some s ≠ (none : Option NALU)) ∧
    (observedVPSH265 (.rtp [2, 0]) = [] ∧
      (applyParamEventH265 ⟨some [64], none, none⟩ (.rtp [2, 0])).vps =
        some [64]) := by
  refine ⟨?_, ⟨?_, ?_⟩, ⟨?_, ?_⟩⟩
  · exact (parameterSets_monotone.1 [ParamEventH264.au [[101]]]
      ⟨some [103], some [104]⟩).1 rfl
  · decide
  · exact (parameterSets_monotone.2.2.1 ⟨none, none⟩ (.au [[103]])).1 (by decide)
  · decide
  · exact (parameterSets_monotone.2.2.2 ⟨some [64], none, none⟩
      (.rtp [2, 0])).2.2.2.1 (by decide)

/-- C5: when no encoder exists and the (padding-stripped) first RTP
packet exceeds `udpMaxPayloadSize`, `Process` creates an encoder seeded
with that packet's SSRC and sequence number instead of rejecting it; and
once an encoder exists, every RTP-carrying unit is decoded, remuxed and
re-encoded — its packets are replaced by the encoder's output — with no
size hypothesis on the packet.  Both H.264 and H.265. -/
theorem oversize_lazy_encoder :
    (∀ (decode : RtpPacket → DecodeResult)
        (encode : AccessUnit → Option (List RtpPacket))
        (setTs : List RtpPacket → List RtpPacket)
        (t : ProcH264) (u : MediaUnit) (pkt : RtpPacket)
        (rest : List RtpPacket) (hnr : Bool),
      t.encoder = none →
      u.rtpPackets = some (pkt :: rest) →
      pkt.stripPadding.marshalSize > t.udpMaxPayloadSize →
      (processH264 decode encode setTs t u hnr).1.encoder =
        some ⟨some pkt.ssrc, some pkt.sequenceNumber⟩) ∧
    (∀ (decode : RtpPacket → DecodeResult)
        (encode : AccessUnit → Option (List RtpPacket))
        (setTs : List RtpPacket → List RtpPacket)
        (t : ProcH265) (u : MediaUnit) (pkt : RtpPacket)
        (rest : List RtpPacket) (hnr : Bool),
      t.encoder = none →
      u.rtpPackets = some (pkt :: rest) →
      pkt.stripPadding.marshalSize > t.udpMaxPayloadSize →
      (processH265 decode encode setTs t u hnr).1.encoder =
        some ⟨some pkt.ssrc, some pkt.sequenceNumber⟩) ∧
    (∀ (decode : RtpPacket → DecodeResult)
        (encode : AccessUnit → Option (List RtpPacket))
        (setTs : List RtpPacket → List RtpPacket)
        (t : ProcH264) (u : MediaUnit) (pkt : RtpPacket)
        (rest : List RtpPacket) (hnr : Bool) (au : AccessUnit)
        (pkts : List RtpPacket),
      t.encoder.isSome = true →
      u.rtpPackets = some (pkt :: rest) →
      decode pkt = .ok au →
      remuxAccessUnitH264
        (updateTrackParametersFromRTPPacketH264 t.format pkt.payload) au ≠ [] →
      encode (remuxAccessUnitH264
        (updateTrackParametersFromRTPPacketH264 t.format pkt.payload) au) =
        some pkts →
      (processH264 decode encode setTs t u hnr).2.1.rtpPackets =
        some (setTs pkts) ∧
      (processH264 decode encode setTs t u hnr).2.1.au =
        remuxAccessUnitH264
          (updateTrackParametersFromRTPPacketH264 t.format pkt.payload) au ∧
      (processH264 decode encode setTs t u hnr).2.2 = none) ∧
    (∀ (decode : RtpPacket → DecodeResult)
        (encode : AccessUnit → Option (List RtpPacket))
        (setTs : List RtpPacket → List RtpPacket)
        (t : ProcH265) (u : MediaUnit) (pkt : RtpPacket)
        (rest : List RtpPacket) (hnr : Bool) (au : AccessUnit)
        (pkts : List RtpPacket),
      t.encoder.isSome = true →
      u.rtpPackets = some (pkt :: rest) →
      decode pkt = .ok au →
      remuxAccessUnitH265
        (updateTrackParametersFromRTPPacketH265 t.format pkt.payload) au ≠ [] →
      encode (remuxAccessUnitH265
        (updateTrackParametersFromRTPPacketH265 t.format pkt.payload) au) =
        some pkts →
      (processH265 decode encode setTs t u hnr).2.1.rtpPackets =
        some (setTs pkts) ∧
      (processH265 decode encode setTs t u hnr).2.1.au =
        remuxAccessUnitH265
          (updateTrackParametersFromRTPPacketH265 t.format pkt.payload) au ∧
      (processH265 decode encode setTs t u hnr).2.2 = none) := by
  refine ⟨?_, ?_, ?_, ?_⟩
  · intro decode encode setTs t u pkt rest hnr henc hu hsz
    obtain ⟨rp, au'⟩ := u
    simp only at hu
    subst hu
    simp only [processH264]
    dsimp only
    rw [henc]
    simp only [Option.isNone_none, if_true, Bool.true_and, decide_eq_true_eq]
    rw [if_pos hsz]
    cases hdec : decode pkt.stripPadding <;>
      simp [hdec, processEncodeTail]
  · intro decode encode setTs t u pkt rest hnr henc hu hsz
    obtain ⟨rp, au'⟩ := u
    simp only at hu
    subst hu
    simp only [processH265]
    dsimp only
    rw [henc]
    simp only [Option.isNone_none, if_true, Bool.true_and, decide_eq_true_eq]
    rw [if_pos hsz]
    cases hdec : decode pkt.stripPadding <;>
      simp [hdec, processEncodeTail]
  · intro decode encode setTs t u pkt rest hnr au pkts henc hu hdec hne hencres
    obtain ⟨ecfg, henc'⟩ := Option.isSome_iff_exists.mp henc
    obtain ⟨rp, au'⟩ := u
    simp only at hu
    subst hu
    have hne' : (remuxAccessUnitH264
        (updateTrackParametersFromRTPPacketH264 t.format pkt.payload) au).isEmpty
        = false := by
      cases hx : (remuxAccessUnitH264
          (updateTrackParametersFromRTPPacketH264 t.format pkt.payload) au).isEmpty
      · rfl
      · exact absurd (List.isEmpty_iff.mp hx) hne
    simp only [processH264]
    dsimp only
    rw [henc']
    simp only [Option.isNone_some, Bool.false_and, Bool.false_eq_true, if_false,
      Option.isSome_some, Bool.or_true]
    simp [hdec, processEncodeTail, hne', hencres]
  · intro decode encode setTs t u pkt rest hnr au pkts henc hu hdec hne hencres
    obtain ⟨ecfg, henc'⟩ := Option.isSome_iff_exists.mp henc
    obtain ⟨rp, au'⟩ := u
    simp only at hu
    subst hu
    have hne' : (remuxAccessUnitH265
        (updateTrackParametersFromRTPPacketH265 t.format pkt.payload) au).isEmpty
        = false := by
      cases hx : (remuxAccessUnitH265
          (updateTrackParametersFromRTPPacketH265 t.format pkt.payload) au).isEmpty
      · rfl
      · exact absurd (List.isEmpty_iff.mp hx) hne
    simp only [processH265]
    dsimp only
    rw [henc']
    simp only [Option.isNone_some, Bool.false_and, Bool.false_eq_true, if_false,
      Option.isSome_some, Bool.or_true]
    simp [hdec, processEncodeTail, hne', hencres]

/-- Witness for C5 at concrete inputs: a 200-byte packet against a
100-byte limit seeds the encoder with SSRC 11 and sequence number 22; and
with an encoder present a small packet is re-encoded. -/
theorem oversize_lazy_encoder_witness :
    (processH264 (fun _ => .errMorePacketsNeeded) (fun _ => none) id
        ⟨100, ⟨none, none⟩, none, false⟩
        ⟨some [⟨11, 22, [1], true, 4, 200⟩], []⟩ false).1.encoder =
      some ⟨some 11, some 22⟩ ∧
    (processH265 (fun _ => .errMorePacketsNeeded) (fun _ => none) id
        ⟨100, ⟨none, none, none⟩, none, false⟩
        ⟨some [⟨11, 22, [1], true, 4, 200⟩], []⟩ false).1.encoder =
      some ⟨some 11, some 22⟩ ∧
    (processH264 (fun _ => .ok [[101]]) (fun _ => some [⟨0, 0, [], false, 0, 0⟩]) id
        ⟨100, ⟨none, none⟩, some ⟨none, none⟩, false⟩
        ⟨some [⟨1, 2, [1], false, 0, 10⟩], []⟩ false).2.1.rtpPackets =
      some [⟨0, 0, [], false, 0, 0⟩] ∧
    (processH265 (fun _ => .ok [[38]]) (fun _ => some [⟨0, 0, [], false, 0, 0⟩]) id
        ⟨100, ⟨none, none, none⟩, some ⟨none, none⟩, false⟩
        ⟨some [⟨1, 2, [1], false, 0, 10⟩], []⟩ false).2.1.rtpPackets =
      some [⟨0, 0, [], false, 0, 0⟩] :=
  ⟨oversize_lazy_encoder.1 (fun _ => .errMorePacketsNeeded) (fun _ => none) id
      ⟨100, ⟨none, none⟩, none, false⟩ ⟨some [⟨11, 22, [1], true, 4, 200⟩], []⟩
      ⟨11, 22, [1], true, 4, 200⟩ [] false rfl rfl (by decide),
   oversize_lazy_encoder.2.1 (fun _ => .errMorePacketsNeeded) (fun _ => none) id
      ⟨100, ⟨none, none, none⟩, none, false⟩
      ⟨some [⟨11, 22, [1], true, 4, 200⟩], []⟩
      ⟨11, 22, [1], true, 4, 200⟩ [] false rfl rfl (by decide),
   (oversize_lazy_encoder.2.2.1 (fun _ => .ok [[101]])
      (fun _ => some [⟨0, 0, [], false, 0, 0⟩]) id
      ⟨100, ⟨none, none⟩, some ⟨none, none⟩, false⟩
      ⟨some [⟨1, 2, [1], false, 0, 10⟩], []⟩
      ⟨1, 2, [1], false, 0, 10⟩ [] false [[101]] [⟨0, 0, [], false, 0, 0⟩]
      rfl rfl rfl (by decide) (by decide)).1,
   (oversize_lazy_encoder.2.2.2 (fun _ => .ok [[38]])
      (fun _ => some [⟨0, 0, [], false, 0, 0⟩]) id
      ⟨100, ⟨none, none, none⟩, some ⟨none, none⟩, false⟩
      ⟨some [⟨1, 2, [1], false, 0, 10⟩], []⟩
      ⟨1, 2, [1], false, 0, 10⟩ [] false [[38]] [⟨0, 0, [], false, 0, 0⟩]
      rfl rfl rfl (by decide) (by decide)).1⟩

/-- C6 (amended): decoder errors "more packets needed" / "no previous
starting packet" are non-fatal — processing returns no error and the
decoded payload stays nil.  The Unit keeps its (padding-stripped) RTP
packets when no H.264/H.265 encoder exists and in the VP9 and
MPEG-1-audio processors; when an H.264/H.265 encoder exists the RTP
packets are cleared instead.  Any other decoder error is returned as a
failure. -/
theorem nonfatal_decode_errors :
    (∀ (decode : RtpPacket → DecodeResult)
        (encode : AccessUnit → Option (List RtpPacket))
        (setTs : List RtpPacket → List RtpPacket)
        (t : ProcH264) (u : MediaUnit) (pkt : RtpPacket)
        (rest : List RtpPacket) (hnr : Bool),
      t.encoder = none →
      u.rtpPackets = some (pkt :: rest) →
      ¬ pkt.stripPadding.marshalSize > t.udpMaxPayloadSize →
      (hnr || t.hasDecoder) = true →
      (decode pkt.stripPadding = .errMorePacketsNeeded ∨
        decode pkt.stripPadding = .errNonStartingPacketAndNoPrevious) →
      (processH264 decode encode setTs t u hnr).2.2 = none ∧
      (processH264 decode encode setTs t u hnr).2.1.au = u.au ∧
      (processH264 decode encode setTs t u hnr).2.1.rtpPackets =
        some (pkt.stripPadding :: rest)) ∧
    (∀ (decode : RtpPacket → DecodeResult)
        (encode : AccessUnit → Option (List RtpPacket))
        (setTs : List RtpPacket → List RtpPacket)
        (t : ProcH265) (u : MediaUnit) (pkt : RtpPacket)
        (rest : List RtpPacket) (hnr : Bool),
      t.encoder = none →
      u.rtpPackets = some (pkt :: rest) →
      ¬ pkt.stripPadding.marshalSize > t.udpMaxPayloadSize →
      (hnr || t.hasDecoder) = true →
      (decode pkt.stripPadding = .errMorePacketsNeeded ∨
        decode pkt.stripPadding = .errNonStartingPacketAndNoPrevious) →
      (processH265 decode encode setTs t u hnr).2.2 = none ∧
      (processH265 decode encode setTs t u hnr).2.1.au = u.au ∧
      (processH265 decode encode setTs t u hnr).2.1.rtpPackets =
        some (pkt.stripPadding :: rest)) ∧
    (∀ (decode : RtpPacket → DecodeResult)
        (encode : AccessUnit → Option (List RtpPacket))
        (setTs : List RtpPacket → List RtpPacket)
        (t : ProcH264) (u : MediaUnit) (pkt : RtpPacket)
        (rest : List RtpPacket) (hnr : Bool),
      t.encoder.isSome = true →
      u.rtpPackets = some (pkt :: rest) →
      (decode pkt = .errMorePacketsNeeded ∨
        decode pkt = .errNonStartingPacketAndNoPrevious) →
      (processH264 decode encode setTs t u hnr).2.2 = none ∧
      (processH264 decode encode setTs t u hnr).2.1.au = u.au ∧
      (processH264 decode encode setTs t u hnr).2.1.rtpPackets = none) ∧
    (∀ (decode : RtpPacket → DecodeResult)
        (encode : AccessUnit → Option (List RtpPacket))
        (setTs : List RtpPacket → List RtpPacket)
        (t : ProcH265) (u : MediaUnit) (pkt : RtpPacket)
        (rest : List RtpPacket) (hnr : Bool),
      t.encoder.isSome = true →
      u.rtpPackets = some (pkt :: rest) →
      (decode pkt = .errMorePacketsNeeded ∨
        decode pkt = .errNonStartingPacketAndNoPrevious) →
      (processH265 decode encode setTs t u hnr).2.2 = none ∧
      (processH265 decode encode setTs t u hnr).2.1.au = u.au ∧
      (processH265 decode encode setTs t u hnr).2.1.rtpPackets = none) ∧
    (∀ (decode : RtpPacket → DecodeResult)
        (encode : AccessUnit → Option (List RtpPacket))
        (setTs : List RtpPacket → List RtpPacket)
        (t : ProcH264) (u : MediaUnit) (pkt : RtpPacket)
        (rest : List RtpPacket) (hnr : Bool),
      t.encoder = none →
      u.rtpPackets = some (pkt :: rest) →
      ¬ pkt.stripPadding.marshalSize > t.udpMaxPayloadSize →
      (hnr || t.hasDecoder) = true →
      decode pkt.stripPadding = .errOther →
      (processH264 decode encode setTs t u hnr).2.2 = some .decodeError) ∧
    (∀ (decode : RtpPacket → DecodeResult)
        (encode : AccessUnit → Option (List RtpPacket))
        (setTs : List RtpPacket → List RtpPacket)
        (t : ProcH265) (u : MediaUnit) (pkt : RtpPacket)
        (rest : List RtpPacket) (hnr : Bool),
      t.encoder = none →
      u.rtpPackets = some (pkt :: rest) →
      ¬ pkt.stripPadding.marshalSize > t.udpMaxPayloadSize →
      (hnr || t.hasDecoder) = true →
      decode pkt.stripPadding = .errOther →
      (processH265 decode encode setTs t u hnr).2.2 = some .decodeError) ∧
    (∀ (decode : RtpPacket → FrameDecodeResult)
        (udpMaxPayloadSize : Nat) (hasDecoder : Bool) (pkt : RtpPacket)
        (hnr : Bool),
      ¬ pkt.stripPadding.marshalSize > udpMaxPayloadSize →
      (hnr || hasDecoder) = true →
      (decode pkt.stripPadding = .errMorePacketsNeeded ∨
        decode pkt.stripPadding = .errNonStartingPacketAndNoPrevious) →
      (processRTPPacketVP9 decode udpMaxPayloadSize hasDecoder pkt hnr).2 =
        .ok ⟨[pkt.stripPadding], none⟩) ∧
    (∀ (decode : RtpPacket → FrameDecodeResult)
        (udpMaxPayloadSize : Nat) (hasDecoder : Bool) (pkt : RtpPacket)
        (hnr : Bool),
      ¬ pkt.stripPadding.marshalSize > udpMaxPayloadSize →
      (hnr || hasDecoder) = true →
      decode pkt.stripPadding = .errOther →
      (processRTPPacketVP9 decode udpMaxPayloadSize hasDecoder pkt hnr).2 =
        .error .decodeError) ∧
    (∀ (decode : RtpPacket → FramesDecodeResult)
        (udpMaxPayloadSize : Nat) (hasDecoder : Bool) (pkt : RtpPacket)
        (hnr : Bool),
      ¬ pkt.stripPadding.marshalSize > udpMaxPayloadSize →
      (hnr || hasDecoder) = true →
      (decode pkt.stripPadding = .errMorePacketsNeeded ∨
        decode pkt.stripPadding = .errNonStartingPacketAndNoPrevious) →
      (processRTPPacketMPEG1Audio decode udpMaxPayloadSize hasDecoder pkt hnr).2 =
        .ok ⟨[pkt.stripPadding], []⟩) ∧
    (∀ (decode : RtpPacket → FramesDecodeResult)
        (udpMaxPayloadSize : Nat) (hasDecoder : Bool) (pkt : RtpPacket)
        (hnr : Bool),
      ¬ pkt.stripPadding.marshalSize > udpMaxPayloadSize →
      (hnr || hasDecoder) = true →
      decode pkt.stripPadding = .errOther →
      (processRTPPacketMPEG1Audio decode udpMaxPayloadSize hasDecoder pkt hnr).2 =
        .error .decodeError) := by
  refine ⟨?_, ?_, ?_, ?_, ?_, ?_, ?_, ?_, ?_, ?_⟩
  · intro decode encode setTs t u pkt rest hnr henc hu hsz hflag hkind
    obtain ⟨rp, au'⟩ := u
    simp only at hu
    subst hu
    simp only [processH264]
    dsimp only
    rw [henc]
    simp only [Option.isNone_none, if_true, Bool.true_and, decide_eq_true_eq]
    rw [if_neg hsz]
    rcases hkind with hk | hk <;>
      simp [hflag, hk]
  · intro decode encode setTs t u pkt rest hnr henc hu hsz hflag hkind
    obtain ⟨rp, au'⟩ := u
    simp only at hu
    subst hu
    simp only [processH265]
    dsimp only
    rw [henc]
    simp only [Option.isNone_none, if_true, Bool.true_and, decide_eq_true_eq]
    rw [if_neg hsz]
    rcases hkind with hk | hk <;>
      simp [hflag, hk]
  · intro decode encode setTs t u pkt rest hnr henc hu hkind
    obtain ⟨ecfg, henc'⟩ := Option.isSome_iff_exists.mp henc
    obtain ⟨rp, au'⟩ := u
    simp only at hu
    subst hu
    simp only [processH264]
    dsimp only
    rw [henc']
    simp only [Option.isNone_some, Bool.false_and, Bool.false_eq_true, if_false,
      Option.isSome_some, Bool.or_true]
    rcases hkind with hk | hk <;>
      simp [hk]
  · intro decode encode setTs t u pkt rest hnr henc hu hkind
    obtain ⟨ecfg, henc'⟩ := Option.isSome_iff_exists.mp henc
    obtain ⟨rp, au'⟩ := u
    simp only at hu
    subst hu
    simp only [processH265]
    dsimp only
    rw [henc']
    simp only [Option.isNone_some, Bool.false_and, Bool.false_eq_true, if_false,
      Option.isSome_some, Bool.or_true]
    rcases hkind with hk | hk <;>
      simp [hk]
  · intro decode encode setTs t u pkt rest hnr henc hu hsz hflag hk
    obtain ⟨rp, au'⟩ := u
    simp only at hu
    subst hu
    simp only [processH264]
    dsimp only
    rw [henc]
    simp only [Option.isNone_none, if_true, Bool.true_and, decide_eq_true_eq]
    rw [if_neg hsz]
    simp [hflag, hk]
  · intro decode encode setTs t u pkt rest hnr henc hu hsz hflag hk
    obtain ⟨rp, au'⟩ := u
    simp only at hu
    subst hu
    simp only [processH265]
    dsimp only
    rw [henc]
    simp only [Option.isNone_none, if_true, Bool.true_and, decide_eq_true_eq]
    rw [if_neg hsz]
    simp [hflag, hk]
  · intro decode udpMaxPayloadSize hasDecoder pkt hnr hsz hflag hkind
    simp only [processRTPPacketVP9]
    rw [if_neg hsz]
    rcases hkind with hk | hk <;>
      simp [hflag, hk]
  · intro decode udpMaxPayloadSize hasDecoder pkt hnr hsz hflag hk
    simp only [processRTPPacketVP9]
    rw [if_neg hsz]
    simp [hflag, hk]
  · intro decode udpMaxPayloadSize hasDecoder pkt hnr hsz hflag hkind
    simp only [processRTPPacketMPEG1Audio]
    rw [if_neg hsz]
    rcases hkind with hk | hk <;>
      simp [hflag, hk]
  · intro decode udpMaxPayloadSize hasDecoder pkt hnr hsz hflag hk
    simp only [processRTPPacketMPEG1Audio]
    rw [if_neg hsz]
    simp [hflag, hk]

/-- Counterexample to C6 as stated: with an H.265 encoder present, a
"more packets needed" decode error succeeds but CLEARS the unit's RTP
packets instead of keeping the originals. -/
theorem nonfatal_error_clears_rtp_counterexample :
    (processH265 (fun _ => DecodeResult.errMorePacketsNeeded) (fun _ => none) id
        ⟨1472, ⟨none, none, none⟩, some ⟨none, none⟩, false⟩
        ⟨some [⟨1, 2, [1], false, 0, 100⟩], []⟩ false).2.2 = none ∧
    (processH265 (fun _ => DecodeResult.errMorePacketsNeeded) (fun _ => none) id
        ⟨1472, ⟨none, none, none⟩, some ⟨none, none⟩, false⟩
        ⟨some [⟨1, 2, [1], false, 0, 100⟩], []⟩ false).2.1.rtpPackets = none ∧
    (⟨some [⟨1, 2, [1], false, 0, 100⟩], []⟩ : MediaUnit).rtpPackets ≠ none := by
  refine ⟨?_, ?_, by decide⟩ <;> decide

/-- Witness for C6 at concrete inputs: a "more packets needed" error with
no encoder keeps the packet on H.264, and on VP9. -/
theorem nonfatal_decode_errors_witness :
    (processH264 (fun _ => DecodeResult.errMorePacketsNeeded) (fun _ => none) id
        ⟨1472, ⟨none, none⟩, none, false⟩
        ⟨some [⟨1, 2, [1], true, 4, 100⟩], []⟩ true).2.1.rtpPackets =
      some [⟨1, 2, [1], false, 0, 100⟩] ∧
    (processRTPPacketVP9 (fun _ => FrameDecodeResult.errNonStartingPacketAndNoPrevious)
        1472 false ⟨1, 2, [1], true, 4, 100⟩ true).2 =
      .ok ⟨[⟨1, 2, [1], false, 0, 100⟩], none⟩ :=
  ⟨(nonfatal_decode_errors.1 (fun _ => DecodeResult.errMorePacketsNeeded)
      (fun _ => none) id ⟨1472, ⟨none, none⟩, none, false⟩
      ⟨some [⟨1, 2, [1], true, 4, 100⟩], []⟩ ⟨1, 2, [1], true, 4, 100⟩ [] true
      rfl rfl (by decide) rfl (Or.inl rfl)).2.2,
   nonfatal_decode_errors.2.2.2.2.2.2.1
      (fun _ => FrameDecodeResult.errNonStartingPacketAndNoPrevious) 1472 false
      ⟨1, 2, [1], true, 4, 100⟩ true (by decide) rfl (Or.inr rfl)⟩

end Mediamtx
